import Mathlib

/-!
# hlf-operator-ui: the `serve` command (api/cmd/serve/serve.go)

A shallow embedding of `getGateway`, `serveCmd.run` and `newGrpcConnection`.

* Go strings and `[]byte` values are byte sequences (`List UInt8`); a nil slice is the
  empty list.
* A Go `interface{}` value returned by `ConfigBackend.Lookup` is a `Value`.
* Every function of another package (client-go, fabric-sdk-go, fabric-gateway, grpc,
  hlf-operator utils) is a field of `Env`: its result is not computed here, only consumed.
* A run is an `Exec`: the sequence of calls made (`Event`s) and either the value produced
  or the way the function stopped (`Stop.returned err`, `Stop.panicked p`).
-/

namespace Serve

/-! ## Strings -/

/-- A Go string: an immutable sequence of bytes. -/
abbrev GoString := List UInt8

/-- The bytes (UTF-8) of a string literal of the source. -/
def str (s : String) : GoString := s.data.flatMap String.utf8EncodeChar

/-- Worker of `Replace` for a non-empty `old`: scans `s` from the left; `skip` counts the bytes
of a matched occurrence still to be dropped, `budget` the replacements still allowed
(`none`: no limit). -/
def replaceScan (old new : GoString) : Option Nat → Nat → GoString → GoString
  | _, _, [] => []
  | budget, skip + 1, _ :: s => replaceScan old new budget skip s
  | some 0, 0, c :: s => c :: s
  | budget, 0, c :: s =>
    if old.isPrefixOf (c :: s) then
      new ++ replaceScan old new (budget.map Nat.pred) (old.length - 1) s
    else c :: replaceScan old new budget 0 s

/-- Go `strings.Replace(s, old, new, n)` for a non-empty `old`: a copy of `s` with the first `n`
non-overlapping instances of `old` replaced by `new`; if `n < 0` there is no limit. -/
def Replace (s old new : GoString) (n : Int) : GoString :=
  if old = new ∨ n = 0 then s
  else replaceScan old new (if n < 0 then none else some n.toNat) 0 s

/-! ## Values of other packages -/

/-- A Go `error` value. `msg` is `fmt.Errorf` of a constant text, `wrap` is
`fmt.Errorf("<text>: %w", inner)`, `ext` is an error made by another package. -/
inductive Err where
  | ext (id : Nat)
  | msg (text : String)
  | wrap (text : String) (inner : Err)
  deriving DecidableEq, Repr

/-- A runtime panic: the unchecked type assertion `x.(want)` on a value of another dynamic
type (`got`, `nil` for the nil interface). -/
inductive Panic where
  | interfaceConversion (got want : String)
  deriving DecidableEq, Repr

/-- A Go `interface{}` as returned by `Lookup`: nil, a `string`, a `[]interface{}`, or a value of
any other dynamic type. -/
inductive Value where
  | nil
  | string (s : GoString)
  | slice (items : List Value)
  | other (typeName : String)

/-- Name of the dynamic type of a value, as a panic message prints it. -/
def Value.typeName : Value → String
  | .nil => "nil"
  | .string _ => "string"
  | .slice _ => "[]interface {}"
  | .other t => t

/-- The `core.ConfigBackend` interface: `Lookup(key) (interface{}, bool)`. -/
structure ConfigBackend where
  Lookup : GoString → Value × Bool

structure KubeConfig where
  id : Nat
  deriving DecidableEq, Repr

structure KubeClient where
  id : Nat
  deriving DecidableEq, Repr

structure HLFClient where
  id : Nat
  deriving DecidableEq, Repr

/-- The value of type `[]core.ConfigBackend` a config provider returns. -/
structure CfgBackends where
  id : Nat
  deriving DecidableEq, Repr

structure FabricSDK where
  id : Nat
  deriving DecidableEq, Repr

structure Certificate where
  id : Nat
  deriving DecidableEq, Repr

structure X509Identity where
  id : Nat
  deriving DecidableEq, Repr

structure PrivateKey where
  id : Nat
  deriving DecidableEq, Repr

structure Sign where
  id : Nat
  deriving DecidableEq, Repr

structure ClientConn where
  id : Nat
  deriving DecidableEq, Repr

structure Gateway where
  id : Nat
  deriving DecidableEq, Repr

/-- An `x509.CertPool`: the certificates added to it. `x509.NewCertPool()` is the empty pool
(it holds no system roots). -/
structure CertPool where
  certs : List Certificate
  deriving DecidableEq, Repr

def NewCertPool : CertPool := ⟨[]⟩

/-- The method `(*CertPool).AddCert`: the certificate is added unless already present. -/
def CertPool.AddCert (p : CertPool) (c : Certificate) : CertPool :=
  if c ∈ p.certs then p else ⟨p.certs ++ [c]⟩

/-- The TLS client credentials made by `credentials.NewClientTLSFromCert(cp, serverNameOverride)`:
`tls.Config{ServerName: serverNameOverride, RootCAs: cp}`. -/
structure TransportCredentials where
  RootCAs : CertPool
  ServerName : GoString
  deriving DecidableEq, Repr

def NewClientTLSFromCert (cp : CertPool) (serverNameOverride : GoString) : TransportCredentials :=
  ⟨cp, serverNameOverride⟩

/-- A `grpc.DialOption`. -/
inductive DialOption where
  | WithTransportCredentials (creds : TransportCredentials)
  deriving DecidableEq, Repr

/-- A `time.Duration`: nanoseconds. -/
abbrev Duration := Int

def Second : Duration := 1000000000

def Minute : Duration := 60 * Second

/-- A `client.ConnectOption` of fabric-gateway. -/
inductive ConnectOption where
  | WithSign (sign : Sign)
  | WithClientConnection (conn : Option ClientConn)
  | WithEvaluateTimeout (d : Duration)
  | WithEndorseTimeout (d : Duration)
  | WithSubmitTimeout (d : Duration)
  | WithCommitStatusTimeout (d : Duration)
  deriving DecidableEq, Repr

/-- The functions of other packages that the file calls. A call that returns `(T, error)` and
whose value is used only when the error is nil is an `Except`; `client.Connect` keeps both
components of its result. -/
structure Env where
  Getenv : GoString → GoString
  BuildConfigFromFlags : GoString → GoString → Except Err KubeConfig
  kubernetesNewForConfig : KubeConfig → Except Err KubeClient
  operatorv1NewForConfig : KubeConfig → Except Err HLFClient
  /-- The provider `config.FromFile(path)`, called: `configBackend()`. -/
  configFromFile : GoString → Except Err CfgBackends
  /-- The call `fabsdk.New(config.FromFile(path))`. -/
  fabsdkNew : GoString → Except Err FabricSDK
  sdkConfig : FabricSDK → Except Err ConfigBackend
  CertificateFromPEM : List UInt8 → Except Err Certificate
  grpcDial : GoString → List DialOption → Except Err ClientConn
  ParseX509Certificate : List UInt8 → Except Err Certificate
  NewX509Identity : GoString → Certificate → Except Err X509Identity
  PrivateKeyFromPEM : List UInt8 → Except Err PrivateKey
  NewPrivateKeySign : PrivateKey → Except Err Sign
  clientConnect : X509Identity → List ConnectOption → Option Gateway × Option Err

/-- One call made during a run, with its arguments. -/
inductive Event where
  | BuildConfigFromFlags (masterUrl kubeconfigPath : GoString)
  | kubernetesNewForConfig (c : KubeConfig)
  | operatorv1NewForConfig (c : KubeConfig)
  | configFromFile (path : GoString)
  | fabsdkNew (path : GoString)
  | sdkConfig (sdk : FabricSDK)
  | Lookup (key : GoString)
  | newGrpcConnection (peerEndpoint : GoString) (tlsCert : List UInt8)
  | CertificateFromPEM (pem : List UInt8)
  | grpcDial (target : GoString) (opts : List DialOption)
  | ParseX509Certificate (pem : List UInt8)
  | NewX509Identity (mspID : GoString) (cert : Certificate)
  | PrivateKeyFromPEM (pem : List UInt8)
  | NewPrivateKeySign (key : PrivateKey)
  | clientConnect (id : X509Identity) (opts : List ConnectOption)
  deriving DecidableEq, Repr

/-! ## Executions -/

/-- How a function stops without producing its value. -/
inductive Stop where
  | returned (err : Err)
  | panicked (p : Panic)
  deriving DecidableEq, Repr

/-- An execution: the calls made, in order, and the value or the stop. -/
structure Exec (α : Type) where
  trace : List Event
  result : Except Stop α

def Exec.pure {α : Type} (x : α) : Exec α := ⟨[], .ok x⟩

def Exec.bind {α β : Type} (a : Exec α) (f : α → Exec β) : Exec β :=
  match a.result with
  | .error e => ⟨a.trace, .error e⟩
  | .ok x => ⟨a.trace ++ (f x).trace, (f x).result⟩

instance : Monad Exec where
  pure := Exec.pure
  bind := Exec.bind

/-- Records a call. -/
def emit (e : Event) : Exec Unit := ⟨[e], .ok ()⟩

/-- The statement `return err`. -/
def returnErr {α : Type} (err : Err) : Exec α := ⟨[], .error (.returned err)⟩

/-- A failed type assertion. -/
def panicWith {α : Type} (p : Panic) : Exec α := ⟨[], .error (.panicked p)⟩

/-- The idiom `v, err := f(...); if err != nil { return err }`. -/
def orReturn {α : Type} (r : Except Err α) : Exec α :=
  match r with
  | .error err => returnErr err
  | .ok v => Exec.pure v

/-- The type assertion `v.(string)`. -/
def assertString (v : Value) : Exec GoString :=
  match v with
  | .string s => Exec.pure s
  | v => panicWith (.interfaceConversion v.typeName "string")

/-- The type assertion `v.([]interface{})`. -/
def assertSlice (v : Value) : Exec (List Value) :=
  match v with
  | .slice items => Exec.pure items
  | v => panicWith (.interfaceConversion v.typeName "[]interface {}")

/-! ## The program -/

structure serveCmd where
  address : GoString
  hlfConfig : GoString
  user : GoString
  mspID : GoString

structure IdentityStruct where
  Identity : X509Identity
  Sign : Sign

/-- The `resolvers.Resolver` that `run` builds; a nil pointer or nil slice is `none`. -/
structure Resolver where
  MSPID : GoString
  User : GoString
  KubeClient : KubeClient
  Config : KubeConfig
  HLFClient : HLFClient
  FabricSDK : Option FabricSDK
  ConfigBackends : Option CfgBackends
  Gateway : Option Gateway

/-- The options `getGateway` passes to `client.Connect`. -/
def gatewayOptions (clientConnection : Option ClientConn) (identity : IdentityStruct) :
    List ConnectOption :=
  [.WithSign identity.Sign,
   .WithClientConnection clientConnection,
   .WithEvaluateTimeout (5 * Second),
   .WithEndorseTimeout (15 * Second),
   .WithSubmitTimeout (5 * Second),
   .WithCommitStatusTimeout (1 * Minute)]

/-- Source: `getGateway` (serve.go, lines 50-64). The result is the Go pair `(gw, err)`. -/
def getGateway (env : Env) (clientConnection : Option ClientConn) (identity : IdentityStruct) :
    Exec (Option Gateway × Option Err) := do
  emit (.clientConnect identity.Identity (gatewayOptions clientConnection identity))
  let (gw, err) := env.clientConnect identity.Identity (gatewayOptions clientConnection identity)
  if err ≠ none then
    Exec.pure (none, err)
  else
    Exec.pure (gw, none)

/-- Source: `newGrpcConnection` (serve.go, lines 203-219). The result is the Go pair
`(connection, err)`. -/
def newGrpcConnection (env : Env) (peerEndpoint : GoString) (tlsCert : List UInt8) :
    Exec (Option ClientConn × Option Err) := do
  emit (.CertificateFromPEM tlsCert)
  match env.CertificateFromPEM tlsCert with
  | .error err => Exec.pure (none, some (.wrap "failed to obtain commit status" err))
  | .ok certificate =>
    let certPool := NewCertPool
    let certPool := certPool.AddCert certificate
    let transportCredentials := NewClientTLSFromCert certPool (str "")
    emit (.grpcDial peerEndpoint [.WithTransportCredentials transportCredentials])
    match env.grpcDial peerEndpoint [.WithTransportCredentials transportCredentials] with
    | .error err => Exec.pure (none, some (.wrap "failed to evaluate transaction" err))
    | .ok connection => Exec.pure (some connection, none)

/-- The key `fmt.Sprintf("organizations.%s.peers", mspID)`. -/
def peersKey (mspID : GoString) : GoString :=
  str "organizations." ++ mspID ++ str ".peers"

/-- The key `fmt.Sprintf("peers.%s.url", peerName)`. -/
def peerUrlKey (peerName : GoString) : GoString :=
  str "peers." ++ peerName ++ str ".url"

/-- The key `fmt.Sprintf("peers.%s.tlsCACerts.pem", peerName)`. -/
def peerTLSCACertKey (peerName : GoString) : GoString :=
  str "peers." ++ peerName ++ str ".tlsCACerts.pem"

/-- The key `fmt.Sprintf("organizations.%s.users.%s.cert.pem", mspID, user)`. -/
def userCertKey (mspID user : GoString) : GoString :=
  str "organizations." ++ mspID ++ str ".users." ++ user ++ str ".cert.pem"

/-- The key `fmt.Sprintf("organizations.%s.users.%s.key.pem", mspID, user)`. -/
def userPrivateKey (mspID user : GoString) : GoString :=
  str "organizations." ++ mspID ++ str ".users." ++ user ++ str ".key.pem"

/-- The variables the peer loop of `run` assigns (lines 99-102). -/
structure PeerVars where
  peers : List GoString
  idx : Int
  peerUrl : GoString
  peerTLSCACert : List UInt8

/-- Source: the loop `for _, item := range peersArrayInterface` of `run` (lines 103-116), from
the items still to visit and the current variables. -/
def peerLoop (configBackend1 : ConfigBackend) : List Value → PeerVars → Exec PeerVars
  | [], v => Exec.pure v
  | item :: rest, v => do
    let peerName ← assertString item
    let peers := v.peers ++ [peerName]
    emit (.Lookup (peerUrlKey peerName))
    let (peerUrlInt, _) := configBackend1.Lookup (peerUrlKey peerName)
    emit (.Lookup (peerTLSCACertKey peerName))
    let (peerTLSCACertInt, _) := configBackend1.Lookup (peerTLSCACertKey peerName)
    let peerUrlString ← assertString peerUrlInt
    let peerUrl := Replace peerUrlString (str "grpcs://") (str "") (-1)
    let peerTLSCACert ← assertString peerTLSCACertInt
    let idx := v.idx + 1
    if idx ≥ 1 then
      Exec.pure ⟨peers, idx, peerUrl, peerTLSCACert⟩
    else
      peerLoop configBackend1 rest ⟨peers, idx, peerUrl, peerTLSCACert⟩

/-- Source: lines 97-116 of `run`: the lookup of the peer list and the peer loop, from the
initial values of the variables declared at lines 99-102. -/
def resolvePeer (configBackend1 : ConfigBackend) (mspID : GoString) : Exec PeerVars := do
  emit (.Lookup (peersKey mspID))
  let (peersInt, _) := configBackend1.Lookup (peersKey mspID)
  let peersArrayInterface ← assertSlice peersInt
  peerLoop configBackend1 peersArrayInterface ⟨[], 0, [], []⟩

/-- Source: lines 127-153 of `run`: the connection, the identity, the signer and the gateway,
once both user lookups have reported the key present. Its value is the `gw` assigned. -/
def connect (env : Env) (s : serveCmd) (v : PeerVars)
    (userPrivateCertString userPrivateKeyString : Value) : Exec (Option Gateway) := do
  emit (.newGrpcConnection v.peerUrl v.peerTLSCACert)
  let (grpcConn, err) ← newGrpcConnection env v.peerUrl v.peerTLSCACert
  match err with
  | some err => returnErr err
  | none =>
    let certPEM ← assertString userPrivateCertString
    emit (.ParseX509Certificate certPEM)
    let cert ← orReturn (env.ParseX509Certificate certPEM)
    emit (.NewX509Identity s.mspID cert)
    let x509Identity ← orReturn (env.NewX509Identity s.mspID cert)
    let keyPEM ← assertString userPrivateKeyString
    emit (.PrivateKeyFromPEM keyPEM)
    let privateKey ← orReturn (env.PrivateKeyFromPEM keyPEM)
    emit (.NewPrivateKeySign privateKey)
    let sign ← orReturn (env.NewPrivateKeySign privateKey)
    let (gw, err) ← getGateway env grpcConn ⟨x509Identity, sign⟩
    match err with
    | some err => returnErr err
    | none => Exec.pure gw

/-- Source: lines 97-153 of `run`: everything done with the config backend `configBackend1`. -/
def session (env : Env) (s : serveCmd) (configBackend1 : ConfigBackend) :
    Exec (Option Gateway) := do
  let v ← resolvePeer configBackend1 s.mspID
  emit (.Lookup (userCertKey s.mspID s.user))
  let (userPrivateCertString, certExists) := configBackend1.Lookup (userCertKey s.mspID s.user)
  if !certExists then
    returnErr (.msg "user cert not found")
  else do
    emit (.Lookup (userPrivateKey s.mspID s.user))
    let (userPrivateKeyString, keyExists) :=
      configBackend1.Lookup (userPrivateKey s.mspID s.user)
    if !keyExists then
      returnErr (.msg "user key not found")
    else
      connect env s v userPrivateCertString userPrivateKeyString

/-- The variables `sdk`, `cfgProvider` and `gw` that `run` declares at lines 79-81, before
the block; a nil pointer or nil slice is `none`. -/
structure OuterVars where
  sdk : Option FabricSDK
  cfgProvider : Option CfgBackends
  gw : Option Gateway

/-- Source: the block run when `s.hlfConfig != ""` (lines 83-153), from the outer variables to
the outer variables. Line 84 assigns the outer `cfgProvider` (`=`), line 147 the outer `gw`
(`=`); line 88 declares a new `sdk` (`:=`), local to the block. -/
def bootstrap (env : Env) (s : serveCmd) (o : OuterVars) : Exec OuterVars := do
  emit (.configFromFile s.hlfConfig)
  let cfgProvider ← orReturn (env.configFromFile s.hlfConfig)
  let o := { o with cfgProvider := some cfgProvider }
  emit (.fabsdkNew s.hlfConfig)
  let sdk ← orReturn (env.fabsdkNew s.hlfConfig)
  emit (.sdkConfig sdk)
  let configBackend1 ← orReturn (env.sdkConfig sdk)
  let gw ← session env s configBackend1
  Exec.pure { o with gw := gw }

/-- Source: `serveCmd.run` (lines 65-166), up to the `resolvers.Resolver` it hands to
`gql.NewExecutableSchema`. What follows in the source (handler, routes, `ListenAndServe`)
only consumes that value. -/
def run (env : Env) (s : serveCmd) : Exec Resolver := do
  let kubeConfigPath := env.Getenv (str "KUBECONFIG")
  emit (.BuildConfigFromFlags (str "") kubeConfigPath)
  let kubeConfig ← orReturn (env.BuildConfigFromFlags (str "") kubeConfigPath)
  emit (.kubernetesNewForConfig kubeConfig)
  let kubeClient ← orReturn (env.kubernetesNewForConfig kubeConfig)
  emit (.operatorv1NewForConfig kubeConfig)
  let hlfClient ← orReturn (env.operatorv1NewForConfig kubeConfig)
  let o : OuterVars := ⟨none, none, none⟩
  let o ← if s.hlfConfig ≠ str "" then bootstrap env s o else Exec.pure o
  Exec.pure ⟨s.mspID, s.user, kubeClient, kubeConfig, hlfClient, o.sdk, o.cfgProvider, o.gw⟩

/-! ## Predicates on environments -/

/-- The cluster clients are built without error (lines 66-78). -/
structure KubeReady (env : Env) (kubeConfig : KubeConfig) (kubeClient : KubeClient)
    (hlfClient : HLFClient) : Prop where
  config : env.BuildConfigFromFlags (str "") (env.Getenv (str "KUBECONFIG")) = .ok kubeConfig
  client : env.kubernetesNewForConfig kubeConfig = .ok kubeClient
  hlf : env.operatorv1NewForConfig kubeConfig = .ok hlfClient

/-- The configuration file is loaded and the SDK gives the backend `b` (lines 83-95). -/
structure ConfigLoaded (env : Env) (s : serveCmd) (cfg : CfgBackends) (sdk : FabricSDK)
    (b : ConfigBackend) : Prop where
  file : env.configFromFile s.hlfConfig = .ok cfg
  new : env.fabsdkNew s.hlfConfig = .ok sdk
  backend : env.sdkConfig sdk = .ok b

/-- The calls of lines 66-78 when none fails. -/
def kubeCalls (env : Env) (kubeConfig : KubeConfig) : List Event :=
  [.BuildConfigFromFlags (str "") (env.Getenv (str "KUBECONFIG")),
   .kubernetesNewForConfig kubeConfig,
   .operatorv1NewForConfig kubeConfig]

/-- The calls of lines 83-95 when none fails. -/
def loadCalls (s : serveCmd) (sdk : FabricSDK) : List Event :=
  [.configFromFile s.hlfConfig, .fabsdkNew s.hlfConfig, .sdkConfig sdk]

/-- A call that builds one of the cluster clients (lines 66-78). -/
def Event.isClusterCall : Event → Bool
  | .BuildConfigFromFlags _ _ => true
  | .kubernetesNewForConfig _ => true
  | .operatorv1NewForConfig _ => true
  | _ => false

/-- A call that belongs to the construction of the channel: `newGrpcConnection` and what it
calls. -/
def Event.isChannelCall : Event → Bool
  | .newGrpcConnection _ _ => true
  | .CertificateFromPEM _ => true
  | .grpcDial _ _ => true
  | _ => false

/-- The peer entries have the dynamic types the peer loop asserts: the peer list is a
`[]interface{}` that is empty, or whose first item is a string naming a peer whose `url` and
`tlsCACerts.pem` are strings. -/
def PeersWellTyped (b : ConfigBackend) (mspID : GoString) : Prop :=
  (b.Lookup (peersKey mspID)).1 = .slice [] ∨
  ∃ p rest u c, (b.Lookup (peersKey mspID)).1 = .slice (.string p :: rest) ∧
    (b.Lookup (peerUrlKey p)).1 = .string u ∧ (b.Lookup (peerTLSCACertKey p)).1 = .string c

/-- Every step of lines 127-153 succeeds and the gateway assigned is `gw`. -/
def ConnectSucceeded (env : Env) (s : serveCmd) (v : PeerVars) (cv kv : Value)
    (gw : Option Gateway) : Prop :=
  ∃ grpcConn certPEM cert x509Identity keyPEM privateKey sign,
    (newGrpcConnection env v.peerUrl v.peerTLSCACert).result = .ok (grpcConn, none) ∧
    cv = .string certPEM ∧
    env.ParseX509Certificate certPEM = .ok cert ∧
    env.NewX509Identity s.mspID cert = .ok x509Identity ∧
    kv = .string keyPEM ∧
    env.PrivateKeyFromPEM keyPEM = .ok privateKey ∧
    env.NewPrivateKeySign privateKey = .ok sign ∧
    (getGateway env grpcConn ⟨x509Identity, sign⟩).result = .ok (gw, none)

/-- Every step of the block of lines 83-153 succeeds: the configuration `cfg` is loaded, the
peer is resolved, both user lookups report the key present, and the connection, identity,
signer and gateway are built; `gw` is the gateway assigned. -/
def BootstrapSucceeded (env : Env) (s : serveCmd) (cfg : CfgBackends) (gw : Option Gateway) :
    Prop :=
  ∃ sdk b v cv kv,
    ConfigLoaded env s cfg sdk b ∧
    (resolvePeer b s.mspID).result = .ok v ∧
    b.Lookup (userCertKey s.mspID s.user) = (cv, true) ∧
    b.Lookup (userPrivateKey s.mspID s.user) = (kv, true) ∧
    ConnectSucceeded env s v cv kv gw

/-- A step of lines 127-153 reports the error `e`, the steps before it having succeeded. -/
inductive ConnectFails (env : Env) (s : serveCmd) (v : PeerVars) (cv kv : Value) : Err → Prop
  | channel (grpcConn : Option ClientConn) (e : Err)
      (h : (newGrpcConnection env v.peerUrl v.peerTLSCACert).result = .ok (grpcConn, some e)) :
      ConnectFails env s v cv kv e
  | certificate (grpcConn : Option ClientConn) (certPEM : GoString) (e : Err)
      (h1 : (newGrpcConnection env v.peerUrl v.peerTLSCACert).result = .ok (grpcConn, none))
      (h2 : cv = .string certPEM)
      (h : env.ParseX509Certificate certPEM = .error e) :
      ConnectFails env s v cv kv e
  | identity (grpcConn : Option ClientConn) (certPEM : GoString) (cert : Certificate) (e : Err)
      (h1 : (newGrpcConnection env v.peerUrl v.peerTLSCACert).result = .ok (grpcConn, none))
      (h2 : cv = .string certPEM)
      (h3 : env.ParseX509Certificate certPEM = .ok cert)
      (h : env.NewX509Identity s.mspID cert = .error e) :
      ConnectFails env s v cv kv e
  | privateKey (grpcConn : Option ClientConn) (certPEM : GoString) (cert : Certificate)
      (x509Identity : X509Identity) (keyPEM : GoString) (e : Err)
      (h1 : (newGrpcConnection env v.peerUrl v.peerTLSCACert).result = .ok (grpcConn, none))
      (h2 : cv = .string certPEM)
      (h3 : env.ParseX509Certificate certPEM = .ok cert)
      (h4 : env.NewX509Identity s.mspID cert = .ok x509Identity)
      (h5 : kv = .string keyPEM)
      (h : env.PrivateKeyFromPEM keyPEM = .error e) :
      ConnectFails env s v cv kv e
  | signer (grpcConn : Option ClientConn) (certPEM : GoString) (cert : Certificate)
      (x509Identity : X509Identity) (keyPEM : GoString) (privateKey : PrivateKey) (e : Err)
      (h1 : (newGrpcConnection env v.peerUrl v.peerTLSCACert).result = .ok (grpcConn, none))
      (h2 : cv = .string certPEM)
      (h3 : env.ParseX509Certificate certPEM = .ok cert)
      (h4 : env.NewX509Identity s.mspID cert = .ok x509Identity)
      (h5 : kv = .string keyPEM)
      (h6 : env.PrivateKeyFromPEM keyPEM = .ok privateKey)
      (h : env.NewPrivateKeySign privateKey = .error e) :
      ConnectFails env s v cv kv e
  | gateway (grpcConn : Option ClientConn) (certPEM : GoString) (cert : Certificate)
      (x509Identity : X509Identity) (keyPEM : GoString) (privateKey : PrivateKey) (sign : Sign)
      (gw : Option Gateway) (e : Err)
      (h1 : (newGrpcConnection env v.peerUrl v.peerTLSCACert).result = .ok (grpcConn, none))
      (h2 : cv = .string certPEM)
      (h3 : env.ParseX509Certificate certPEM = .ok cert)
      (h4 : env.NewX509Identity s.mspID cert = .ok x509Identity)
      (h5 : kv = .string keyPEM)
      (h6 : env.PrivateKeyFromPEM keyPEM = .ok privateKey)
      (h7 : env.NewPrivateKeySign privateKey = .ok sign)
      (h : (getGateway env grpcConn ⟨x509Identity, sign⟩).result = .ok (gw, some e)) :
      ConnectFails env s v cv kv e

/-- A step of the block of lines 83-153 reports the error `e`, the steps before it having
succeeded: a call that returns an error, a user lookup that reports the key absent, or a step
of lines 127-153. -/
inductive StepFails (env : Env) (s : serveCmd) : Err → Prop
  | file (e : Err) (h : env.configFromFile s.hlfConfig = .error e) : StepFails env s e
  | sdk (cfg : CfgBackends) (e : Err)
      (h1 : env.configFromFile s.hlfConfig = .ok cfg)
      (h : env.fabsdkNew s.hlfConfig = .error e) : StepFails env s e
  | backend (cfg : CfgBackends) (sdk : FabricSDK) (e : Err)
      (h1 : env.configFromFile s.hlfConfig = .ok cfg)
      (h2 : env.fabsdkNew s.hlfConfig = .ok sdk)
      (h : env.sdkConfig sdk = .error e) : StepFails env s e
  | userCert (cfg : CfgBackends) (sdk : FabricSDK) (b : ConfigBackend) (v : PeerVars)
      (h1 : ConfigLoaded env s cfg sdk b)
      (h2 : (resolvePeer b s.mspID).result = .ok v)
      (h : (b.Lookup (userCertKey s.mspID s.user)).2 = false) :
      StepFails env s (.msg "user cert not found")
  | userKey (cfg : CfgBackends) (sdk : FabricSDK) (b : ConfigBackend) (v : PeerVars)
      (h1 : ConfigLoaded env s cfg sdk b)
      (h2 : (resolvePeer b s.mspID).result = .ok v)
      (h3 : (b.Lookup (userCertKey s.mspID s.user)).2 = true)
      (h : (b.Lookup (userPrivateKey s.mspID s.user)).2 = false) :
      StepFails env s (.msg "user key not found")
  | connect (cfg : CfgBackends) (sdk : FabricSDK) (b : ConfigBackend) (v : PeerVars) (e : Err)
      (h1 : ConfigLoaded env s cfg sdk b)
      (h2 : (resolvePeer b s.mspID).result = .ok v)
      (h3 : (b.Lookup (userCertKey s.mspID s.user)).2 = true)
      (h4 : (b.Lookup (userPrivateKey s.mspID s.user)).2 = true)
      (h : ConnectFails env s v (b.Lookup (userCertKey s.mspID s.user)).1
        (b.Lookup (userPrivateKey s.mspID s.user)).1 e) :
      StepFails env s e

/-- The timeout options among the options of a `client.Connect` call, in order. -/
def timeoutOptions (opts : List ConnectOption) : List ConnectOption :=
  opts.filter fun o =>
    match o with
    | .WithEvaluateTimeout _ => true
    | .WithEndorseTimeout _ => true
    | .WithSubmitTimeout _ => true
    | .WithCommitStatusTimeout _ => true
    | _ => false

/-- The environment `env` with `sdk.Config()` giving the backend `b`. -/
def Env.withBackend (env : Env) (b : ConfigBackend) : Env :=
  { env with sdkConfig := fun _ => .ok b }

/-! ## A concrete environment -/

/-- A configuration file as the list of its entries: `Lookup` of a key that has an entry
gives its value and `true`, of any other key `nil` and `false`. -/
def lookupIn (entries : List (String × Value)) (key : GoString) : Value × Bool :=
  match entries with
  | [] => (.nil, false)
  | e :: rest => if key = str e.1 then (e.2, true) else lookupIn rest key

/-- The entries of the end-to-end scenario but for the peer list: peer `peer0` at `url` with a
CA, user `admin` of `OrgMSP` with a certificate and a key. -/
def sampleEntries (url : String) : List (String × Value) :=
  [("peers.peer0.url", .string (str url)),
   ("peers.peer0.tlsCACerts.pem", .string (str "CA")),
   ("organizations.OrgMSP.users.admin.cert.pem", .string (str "CERT")),
   ("organizations.OrgMSP.users.admin.key.pem", .string (str "KEY"))]

/-- The peer list entry of `OrgMSP`. -/
def peersEntry (names : List String) : String × Value :=
  ("organizations.OrgMSP.peers", .slice (names.map fun n => .string (str n)))

/-- An environment in which every call of another package succeeds, over the configuration
served by `lookup`. -/
def sampleEnv (lookup : GoString → Value × Bool) : Env where
  Getenv := fun _ => str "/kube/config"
  BuildConfigFromFlags := fun _ _ => .ok ⟨1⟩
  kubernetesNewForConfig := fun _ => .ok ⟨2⟩
  operatorv1NewForConfig := fun _ => .ok ⟨3⟩
  configFromFile := fun _ => .ok ⟨4⟩
  fabsdkNew := fun _ => .ok ⟨5⟩
  sdkConfig := fun _ => .ok ⟨lookup⟩
  CertificateFromPEM := fun pem => if pem = [] then .error (.ext 1) else .ok ⟨6⟩
  grpcDial := fun _ _ => .ok ⟨7⟩
  ParseX509Certificate := fun _ => .ok ⟨8⟩
  NewX509Identity := fun _ _ => .ok ⟨9⟩
  PrivateKeyFromPEM := fun _ => .ok ⟨10⟩
  NewPrivateKeySign := fun _ => .ok ⟨11⟩
  clientConnect := fun _ _ => (some ⟨12⟩, none)

/-- The end-to-end scenario with the peer list `peers` and the url `url` of `peer0`. -/
def scenario (peers : List String) (url : String) : Env :=
  sampleEnv (lookupIn (peersEntry peers :: sampleEntries url))

/-- The scenario with one peer and its CA but no entry for the user. -/
def scenarioNoUser : Env :=
  sampleEnv (lookupIn
    [peersEntry ["peer0"],
     ("peers.peer0.url", .string (str "grpcs://localhost:7051")),
     ("peers.peer0.tlsCACerts.pem", .string (str "CA"))])

/-- The scenario without the entry `organizations.OrgMSP.peers`. -/
def scenarioNoPeerList : Env :=
  sampleEnv (lookupIn (sampleEntries "grpcs://localhost:7051"))

/-- The end-to-end scenario with one peer, in which `grpc.Dial` fails. -/
def scenarioDialFails : Env :=
  { scenario ["peer0"] "grpcs://localhost:7051" with grpcDial := fun _ _ => .error (.ext 2) }

def sampleCmd : serveCmd :=
  ⟨str ":8080", str "network.yaml", str "admin", str "OrgMSP"⟩

/-- The command of the scenario with an `--msp-id` that the configuration has no entry for. -/
def otherOrgCmd : serveCmd :=
  ⟨str ":8080", str "network.yaml", str "admin", str "Org2MSP"⟩

/-! ## Lemmas -/

theorem Exec.bind_eq {α β : Type} (a : Exec α) (f : α → Exec β) : (a >>= f) = Exec.bind a f := rfl

/-! ### `strings.Replace` -/

theorem replaceScan_nil (old new : GoString) (b : Option Nat) (k : Nat) :
    replaceScan old new b k [] = [] := by
  cases k <;> cases b <;> simp [replaceScan]

theorem replaceScan_skip (old new : GoString) (b : Option Nat) (k : Nat) (s : GoString) :
    replaceScan old new b k s = replaceScan old new b 0 (s.drop k) := by
  induction s generalizing k with
  | nil => simp [replaceScan_nil]
  | cons c s ih =>
    cases k with
    | zero => simp
    | succ k => rw [replaceScan, ih k]; simp

theorem replaceScan_none_cons (old new : GoString) (c : UInt8) (s : GoString) :
    replaceScan old new none 0 (c :: s) =
      if old.isPrefixOf (c :: s) then new ++ replaceScan old new none (old.length - 1) s
      else c :: replaceScan old new none 0 s := by
  simp [replaceScan]

theorem replaceScan_noOcc (old new : GoString) (s : GoString) (h : ¬ old <:+: s) :
    replaceScan old new none 0 s = s := by
  induction s with
  | nil => simp [replaceScan_nil]
  | cons c s ih =>
    have h1 : ¬ old <+: c :: s := fun hp => h hp.isInfix
    have h2 : ¬ old <:+: s := fun hi => h (hi.trans (List.suffix_cons c s).isInfix)
    rw [replaceScan_none_cons]
    simp [h1, ih h2]

theorem replaceScan_at_occ (old new r : GoString) (hold : old ≠ []) :
    replaceScan old new none 0 (old ++ r) = new ++ replaceScan old new none 0 r := by
  cases old with
  | nil => exact absurd rfl hold
  | cons o os =>
    have hp : (o :: os) <+: o :: (os ++ r) := by simp
    rw [List.cons_append, replaceScan_none_cons]
    simp only [List.isPrefixOf_iff_prefix, hp, if_true]
    rw [replaceScan_skip]
    simp

theorem replaceScan_first (old new a r : GoString) (hold : old ≠ [])
    (h : ¬ old <:+: a ++ old.dropLast) :
    replaceScan old new none 0 (a ++ old ++ r) = a ++ new ++ replaceScan old new none 0 r := by
  induction a with
  | nil => simpa using replaceScan_at_occ old new r hold
  | cons x a ih =>
    have hlen : old.length ≤ (x :: a ++ old.dropLast).length := by
      simp [List.length_dropLast]; omega
    have h1 : ¬ old <+: x :: (a ++ old ++ r) := by
      intro hp
      apply h
      have hq : (x :: a ++ old.dropLast) <+: x :: (a ++ old ++ r) := by
        have : old.dropLast <+: old := List.dropLast_prefix old
        obtain ⟨t, ht⟩ := this
        refine ⟨t ++ r, ?_⟩
        conv_rhs => rw [← ht]
        simp only [List.cons_append, List.append_assoc]
      exact (List.prefix_of_prefix_length_le hp hq hlen).isInfix
    have h2 : ¬ old <:+: a ++ old.dropLast := by
      intro hi
      apply h
      exact hi.trans (List.suffix_cons x _).isInfix
    rw [List.cons_append, List.cons_append, replaceScan_none_cons]
    simp only [List.isPrefixOf_iff_prefix, h1, if_false]
    rw [ih h2]
    simp

theorem scheme_ne_nil : str "grpcs://" ≠ [] := by decide

theorem Replace_scheme (u : GoString) :
    Replace u (str "grpcs://") (str "") (-1) = replaceScan (str "grpcs://") [] none 0 u := by
  have h : ¬ (str "grpcs://" = str "" ∨ (-1 : Int) = 0) := by decide
  have h' : str "" = [] := by decide
  rw [Replace, if_neg h, h']
  simp

/-! ### Executions -/

@[simp] theorem Exec.pure_bind {α β : Type} (x : α) (f : α → Exec β) :
    (Exec.pure x >>= f) = f x := by
  simp [Exec.bind_eq, Exec.bind, Exec.pure]

@[simp] theorem emit_bind {β : Type} (e : Event) (f : Unit → Exec β) :
    (emit e >>= f) = ⟨e :: (f ()).trace, (f ()).result⟩ := by
  simp [Exec.bind_eq, Exec.bind, emit]

@[simp] theorem returnErr_bind {α β : Type} (err : Err) (f : α → Exec β) :
    (returnErr err >>= f) = returnErr err := by
  simp [Exec.bind_eq, Exec.bind, returnErr]

@[simp] theorem panicWith_bind {α β : Type} (p : Panic) (f : α → Exec β) :
    (panicWith p >>= f) = panicWith p := by
  simp [Exec.bind_eq, Exec.bind, panicWith]

@[simp] theorem mk_ok_bind {α β : Type} (t : List Event) (x : α) (f : α → Exec β) :
    ((⟨t, .ok x⟩ : Exec α) >>= f) = ⟨t ++ (f x).trace, (f x).result⟩ := by
  simp [Exec.bind_eq, Exec.bind]

@[simp] theorem mk_error_bind {α β : Type} (t : List Event) (e : Stop) (f : α → Exec β) :
    ((⟨t, .error e⟩ : Exec α) >>= f) = ⟨t, .error e⟩ := by
  simp [Exec.bind_eq, Exec.bind]

@[simp] theorem orReturn_ok {α : Type} (v : α) : orReturn (.ok v) = Exec.pure v := rfl

@[simp] theorem orReturn_error {α : Type} (e : Err) :
    (orReturn (.error e) : Exec α) = returnErr e := rfl

@[simp] theorem assertString_string (s : GoString) : assertString (.string s) = Exec.pure s := rfl

@[simp] theorem assertSlice_slice (l : List Value) : assertSlice (.slice l) = Exec.pure l := rfl

@[simp] theorem returnErr_trace {α : Type} (e : Err) : (returnErr e : Exec α).trace = [] := rfl

@[simp] theorem returnErr_result {α : Type} (e : Err) :
    (returnErr e : Exec α).result = .error (.returned e) := rfl

@[simp] theorem panicWith_trace {α : Type} (p : Panic) : (panicWith p : Exec α).trace = [] := rfl

@[simp] theorem panicWith_result {α : Type} (p : Panic) :
    (panicWith p : Exec α).result = .error (.panicked p) := rfl

@[simp] theorem pure_trace {α : Type} (x : α) : (Exec.pure x).trace = [] := rfl

@[simp] theorem pure_result {α : Type} (x : α) : (Exec.pure x).result = .ok x := rfl

theorem bind_of_result_ok {α β : Type} {a : Exec α} {x : α} (f : α → Exec β)
    (h : a.result = .ok x) : (a >>= f) = ⟨a.trace ++ (f x).trace, (f x).result⟩ := by
  simp [Exec.bind_eq, Exec.bind, h]

theorem bind_of_result_error {α β : Type} {a : Exec α} {e : Stop} (f : α → Exec β)
    (h : a.result = .error e) : (a >>= f) = ⟨a.trace, .error e⟩ := by
  simp [Exec.bind_eq, Exec.bind, h]

/-! ### The peer loop -/

theorem peerLoop_cons (b : ConfigBackend) (p u c : GoString) (rest : List Value) (v : PeerVars)
    (hidx : 0 ≤ v.idx)
    (hu : (b.Lookup (peerUrlKey p)).1 = .string u)
    (hc : (b.Lookup (peerTLSCACertKey p)).1 = .string c) :
    peerLoop b (.string p :: rest) v =
      ⟨[.Lookup (peerUrlKey p), .Lookup (peerTLSCACertKey p)],
       .ok ⟨v.peers ++ [p], v.idx + 1, Replace u (str "grpcs://") (str "") (-1), c⟩⟩ := by
  have h1 : v.idx + 1 ≥ 1 := by omega
  simp [peerLoop, hu, hc, h1, Exec.pure]

theorem resolvePeer_nil (b : ConfigBackend) (mspID : GoString)
    (h : (b.Lookup (peersKey mspID)).1 = .slice []) :
    resolvePeer b mspID = ⟨[.Lookup (peersKey mspID)], .ok ⟨[], 0, [], []⟩⟩ := by
  simp [resolvePeer, h, peerLoop, Exec.pure]

theorem resolvePeer_cons (b : ConfigBackend) (mspID p u c : GoString) (rest : List Value)
    (h : (b.Lookup (peersKey mspID)).1 = .slice (.string p :: rest))
    (hu : (b.Lookup (peerUrlKey p)).1 = .string u)
    (hc : (b.Lookup (peerTLSCACertKey p)).1 = .string c) :
    resolvePeer b mspID =
      ⟨[.Lookup (peersKey mspID), .Lookup (peerUrlKey p), .Lookup (peerTLSCACertKey p)],
       .ok ⟨[p], 1, Replace u (str "grpcs://") (str "") (-1), c⟩⟩ := by
  simp [resolvePeer, h, peerLoop_cons b p u c rest ⟨[], 0, [], []⟩ (le_refl _) hu hc]

theorem resolvePeer_ok_iff (b : ConfigBackend) (mspID : GoString) :
    (∃ v, (resolvePeer b mspID).result = .ok v) ↔ PeersWellTyped b mspID := by
  constructor
  · rintro ⟨v, hv⟩
    rcases hL : b.Lookup (peersKey mspID) with ⟨pv, pb⟩
    cases pv with
    | nil => simp [resolvePeer, hL, assertSlice] at hv
    | string _ => simp [resolvePeer, hL, assertSlice] at hv
    | other _ => simp [resolvePeer, hL, assertSlice] at hv
    | slice items =>
      cases items with
      | nil => exact Or.inl (by simp [hL])
      | cons item rest =>
        right
        cases item with
        | nil => simp [resolvePeer, hL, peerLoop, assertString] at hv
        | slice _ => simp [resolvePeer, hL, peerLoop, assertString] at hv
        | other _ => simp [resolvePeer, hL, peerLoop, assertString] at hv
        | string p =>
          rcases hU : b.Lookup (peerUrlKey p) with ⟨uv, ub⟩
          rcases hC : b.Lookup (peerTLSCACertKey p) with ⟨cv, cb⟩
          cases uv with
          | nil => simp [resolvePeer, hL, peerLoop, hU, hC, assertString] at hv
          | slice _ => simp [resolvePeer, hL, peerLoop, hU, hC, assertString] at hv
          | other _ => simp [resolvePeer, hL, peerLoop, hU, hC, assertString] at hv
          | string u =>
            cases cv with
            | nil => simp [resolvePeer, hL, peerLoop, hU, hC, assertString] at hv
            | slice _ => simp [resolvePeer, hL, peerLoop, hU, hC, assertString] at hv
            | other _ => simp [resolvePeer, hL, peerLoop, hU, hC, assertString] at hv
            | string c => exact ⟨p, rest, u, c, by simp [hL], by simp [hU], by simp [hC]⟩
  · rintro (h | ⟨p, rest, u, c, h, hu, hc⟩)
    · exact ⟨_, by rw [resolvePeer_nil b mspID h]⟩
    · exact ⟨_, by rw [resolvePeer_cons b mspID p u c rest h hu hc]⟩

theorem newGrpcConnection_parseError (env : Env) (e : GoString) (ca : List UInt8) (err : Err)
    (h : env.CertificateFromPEM ca = .error err) :
    newGrpcConnection env e ca =
      ⟨[.CertificateFromPEM ca], .ok (none, some (.wrap "failed to obtain commit status" err))⟩ := by
  simp [newGrpcConnection, h, Exec.pure]

theorem newGrpcConnection_dialError (env : Env) (e : GoString) (ca : List UInt8)
    (cert : Certificate) (err : Err)
    (h : env.CertificateFromPEM ca = .ok cert)
    (hd : env.grpcDial e [.WithTransportCredentials ⟨⟨[cert]⟩, []⟩] = .error err) :
    newGrpcConnection env e ca =
      ⟨[.CertificateFromPEM ca, .grpcDial e [.WithTransportCredentials ⟨⟨[cert]⟩, []⟩]],
       .ok (none, some (.wrap "failed to evaluate transaction" err))⟩ := by
  have h' : str "" = [] := by decide
  simp [newGrpcConnection, h, Exec.pure, NewCertPool, CertPool.AddCert, NewClientTLSFromCert, h', hd]

theorem newGrpcConnection_ok (env : Env) (e : GoString) (ca : List UInt8)
    (cert : Certificate) (conn : ClientConn)
    (h : env.CertificateFromPEM ca = .ok cert)
    (hd : env.grpcDial e [.WithTransportCredentials ⟨⟨[cert]⟩, []⟩] = .ok conn) :
    newGrpcConnection env e ca =
      ⟨[.CertificateFromPEM ca, .grpcDial e [.WithTransportCredentials ⟨⟨[cert]⟩, []⟩]],
       .ok (some conn, none)⟩ := by
  have h' : str "" = [] := by decide
  simp [newGrpcConnection, h, Exec.pure, NewCertPool, CertPool.AddCert, NewClientTLSFromCert, h', hd]

theorem getGateway_eq (env : Env) (conn : Option ClientConn) (identity : IdentityStruct) :
    getGateway env conn identity =
      ⟨[.clientConnect identity.Identity (gatewayOptions conn identity)],
       .ok (if (env.clientConnect identity.Identity (gatewayOptions conn identity)).2 ≠ none
            then (none, (env.clientConnect identity.Identity (gatewayOptions conn identity)).2)
            else ((env.clientConnect identity.Identity (gatewayOptions conn identity)).1, none))⟩ := by
  rcases h : env.clientConnect identity.Identity (gatewayOptions conn identity) with ⟨gw, err⟩
  cases err <;> simp [getGateway, h, Exec.pure]

theorem connect_trace (env : Env) (s : serveCmd) (v : PeerVars) (cv kv : Value) :
    ∃ t, (connect env s v cv kv).trace = .newGrpcConnection v.peerUrl v.peerTLSCACert :: t ∧
      (∀ e a, Event.newGrpcConnection e a ∉ t) ∧ (∀ k, Event.Lookup k ∉ t) := by
  unfold connect
  simp only [emit_bind]
  refine ⟨_, rfl, ?_⟩
  cases h1 : env.CertificateFromPEM v.peerTLSCACert with
  | error err => simp [newGrpcConnection_parseError env _ _ err h1]
  | ok cert =>
    cases h2 : env.grpcDial v.peerUrl [.WithTransportCredentials ⟨⟨[cert]⟩, []⟩] with
    | error err => simp [newGrpcConnection_dialError env _ _ cert err h1 h2]
    | ok conn =>
      simp only [newGrpcConnection_ok env _ _ cert conn h1 h2, mk_ok_bind]
      cases cv with
      | nil => simp [assertString]
      | slice _ => simp [assertString]
      | other _ => simp [assertString]
      | string certPEM =>
        simp only [assertString_string, Exec.pure_bind, emit_bind]
        cases h3 : env.ParseX509Certificate certPEM with
        | error err => simp
        | ok cert1 =>
          simp only [orReturn_ok, Exec.pure_bind, emit_bind]
          cases h4 : env.NewX509Identity s.mspID cert1 with
          | error err => simp
          | ok ident =>
            simp only [orReturn_ok, Exec.pure_bind, emit_bind]
            cases kv with
            | nil => simp [assertString]
            | slice _ => simp [assertString]
            | other _ => simp [assertString]
            | string keyPEM =>
              simp only [assertString_string, Exec.pure_bind, emit_bind]
              cases h5 : env.PrivateKeyFromPEM keyPEM with
              | error err => simp
              | ok key =>
                simp only [orReturn_ok, Exec.pure_bind, emit_bind]
                cases h6 : env.NewPrivateKeySign key with
                | error err => simp
                | ok sign =>
                  simp only [orReturn_ok, Exec.pure_bind, emit_bind, getGateway_eq, mk_ok_bind]
                  rcases h7 : env.clientConnect ident (gatewayOptions (some conn) ⟨ident, sign⟩)
                    with ⟨gw, err⟩
                  cases err <;> simp

/-! ### Lines 127-153 -/

theorem newGrpcConnection_result (env : Env) (e : GoString) (ca : List UInt8) :
    ∃ conn err, (newGrpcConnection env e ca).result = .ok (conn, err) := by
  cases h1 : env.CertificateFromPEM ca with
  | error err => exact ⟨_, _, by rw [newGrpcConnection_parseError env e ca err h1]⟩
  | ok cert =>
    cases h2 : env.grpcDial e [.WithTransportCredentials ⟨⟨[cert]⟩, []⟩] with
    | error err => exact ⟨_, _, by rw [newGrpcConnection_dialError env e ca cert err h1 h2]⟩
    | ok conn => exact ⟨_, _, by rw [newGrpcConnection_ok env e ca cert conn h1 h2]⟩

theorem getGateway_result (env : Env) (conn : Option ClientConn) (identity : IdentityStruct) :
    ∃ gw err, (getGateway env conn identity).result = .ok (gw, err) := by
  rw [getGateway_eq]
  exact ⟨_, _, rfl⟩

theorem connect_of_fails (env : Env) (s : serveCmd) (v : PeerVars) (cv kv : Value) (e : Err)
    (h : ConnectFails env s v cv kv e) :
    (connect env s v cv kv).result = .error (.returned e) := by
  cases h with
  | channel grpcConn e h => simp [connect, bind_of_result_ok _ h]
  | certificate grpcConn certPEM e h1 h2 h => simp [connect, bind_of_result_ok _ h1, h2, h]
  | identity grpcConn certPEM cert e h1 h2 h3 h =>
    simp [connect, bind_of_result_ok _ h1, h2, h3, h]
  | privateKey grpcConn certPEM cert x509Identity keyPEM e h1 h2 h3 h4 h5 h =>
    simp [connect, bind_of_result_ok _ h1, h2, h3, h4, h5, h]
  | signer grpcConn certPEM cert x509Identity keyPEM privateKey e h1 h2 h3 h4 h5 h6 h =>
    simp [connect, bind_of_result_ok _ h1, h2, h3, h4, h5, h6, h]
  | gateway grpcConn certPEM cert x509Identity keyPEM privateKey sign gw e h1 h2 h3 h4 h5 h6 h7 h =>
    simp [connect, bind_of_result_ok _ h1, h2, h3, h4, h5, h6, h7, bind_of_result_ok _ h]

theorem connect_of_succeeded (env : Env) (s : serveCmd) (v : PeerVars) (cv kv : Value)
    (gw : Option Gateway) (h : ConnectSucceeded env s v cv kv gw) :
    (connect env s v cv kv).result = .ok gw := by
  obtain ⟨grpcConn, certPEM, cert, x509Identity, keyPEM, privateKey, sign, h1, h2, h3, h4, h5, h6,
    h7, h8⟩ := h
  simp [connect, bind_of_result_ok _ h1, h2, h3, h4, h5, h6, h7, bind_of_result_ok _ h8]

theorem connect_ok_inv (env : Env) (s : serveCmd) (v : PeerVars) (cv kv : Value)
    (gw : Option Gateway) (h : (connect env s v cv kv).result = .ok gw) :
    ConnectSucceeded env s v cv kv gw := by
  obtain ⟨grpcConn, err, h1⟩ := newGrpcConnection_result env v.peerUrl v.peerTLSCACert
  unfold connect at h
  simp only [emit_bind, bind_of_result_ok _ h1] at h
  cases err with
  | some err => simp at h
  | none =>
    cases cv with
    | nil => simp [assertString] at h
    | slice _ => simp [assertString] at h
    | other _ => simp [assertString] at h
    | string certPEM =>
      simp only [assertString_string, Exec.pure_bind, emit_bind] at h
      cases h3 : env.ParseX509Certificate certPEM with
      | error err => simp [h3] at h
      | ok cert =>
        simp only [h3, orReturn_ok, Exec.pure_bind, emit_bind] at h
        cases h4 : env.NewX509Identity s.mspID cert with
        | error err => simp [h4] at h
        | ok ident =>
          simp only [h4, orReturn_ok, Exec.pure_bind, emit_bind] at h
          cases kv with
          | nil => simp [assertString] at h
          | slice _ => simp [assertString] at h
          | other _ => simp [assertString] at h
          | string keyPEM =>
            simp only [assertString_string, Exec.pure_bind, emit_bind] at h
            cases h5 : env.PrivateKeyFromPEM keyPEM with
            | error err => simp [h5] at h
            | ok key =>
              simp only [h5, orReturn_ok, Exec.pure_bind, emit_bind] at h
              cases h6 : env.NewPrivateKeySign key with
              | error err => simp [h6] at h
              | ok sign =>
                simp only [h6, orReturn_ok, Exec.pure_bind, emit_bind] at h
                obtain ⟨gw1, err1, h7⟩ := getGateway_result env grpcConn ⟨ident, sign⟩
                simp only [bind_of_result_ok _ h7] at h
                cases err1 with
                | some err => simp at h
                | none =>
                  simp at h
                  subst h
                  exact ⟨grpcConn, certPEM, cert, ident, keyPEM, key, sign, h1, rfl, h3, h4, rfl,
                    h5, h6, h7⟩

/-! ### The block of lines 83-153 and `run` -/

theorem session_of_resolve_error (env : Env) (s : serveCmd) (b : ConfigBackend) (st : Stop)
    (hv : (resolvePeer b s.mspID).result = .error st) :
    session env s b = ⟨(resolvePeer b s.mspID).trace, .error st⟩ := by
  simp [session, bind_of_result_error _ hv]

theorem session_certMissing (env : Env) (s : serveCmd) (b : ConfigBackend) (v : PeerVars)
    (hv : (resolvePeer b s.mspID).result = .ok v)
    (hc : (b.Lookup (userCertKey s.mspID s.user)).2 = false) :
    session env s b =
      ⟨(resolvePeer b s.mspID).trace ++ [.Lookup (userCertKey s.mspID s.user)],
       .error (.returned (.msg "user cert not found"))⟩ := by
  rcases hl : b.Lookup (userCertKey s.mspID s.user) with ⟨cv, ce⟩
  rw [hl] at hc
  simp only at hc
  subst hc
  simp [session, bind_of_result_ok _ hv, hl]

theorem session_keyMissing (env : Env) (s : serveCmd) (b : ConfigBackend) (v : PeerVars)
    (hv : (resolvePeer b s.mspID).result = .ok v)
    (hc : (b.Lookup (userCertKey s.mspID s.user)).2 = true)
    (hk : (b.Lookup (userPrivateKey s.mspID s.user)).2 = false) :
    session env s b =
      ⟨(resolvePeer b s.mspID).trace ++
        [.Lookup (userCertKey s.mspID s.user), .Lookup (userPrivateKey s.mspID s.user)],
       .error (.returned (.msg "user key not found"))⟩ := by
  rcases hl : b.Lookup (userCertKey s.mspID s.user) with ⟨cv, ce⟩
  rcases hl2 : b.Lookup (userPrivateKey s.mspID s.user) with ⟨kv, ke⟩
  rw [hl] at hc
  rw [hl2] at hk
  simp only at hc hk
  subst hc hk
  simp [session, bind_of_result_ok _ hv, hl, hl2]

theorem session_connect (env : Env) (s : serveCmd) (b : ConfigBackend) (v : PeerVars)
    (hv : (resolvePeer b s.mspID).result = .ok v)
    (hc : (b.Lookup (userCertKey s.mspID s.user)).2 = true)
    (hk : (b.Lookup (userPrivateKey s.mspID s.user)).2 = true) :
    session env s b =
      ⟨(resolvePeer b s.mspID).trace ++
        ([.Lookup (userCertKey s.mspID s.user), .Lookup (userPrivateKey s.mspID s.user)] ++
          (connect env s v (b.Lookup (userCertKey s.mspID s.user)).1
            (b.Lookup (userPrivateKey s.mspID s.user)).1).trace),
       (connect env s v (b.Lookup (userCertKey s.mspID s.user)).1
            (b.Lookup (userPrivateKey s.mspID s.user)).1).result⟩ := by
  rcases hl : b.Lookup (userCertKey s.mspID s.user) with ⟨cv, ce⟩
  rcases hl2 : b.Lookup (userPrivateKey s.mspID s.user) with ⟨kv, ke⟩
  rw [hl] at hc
  rw [hl2] at hk
  simp only at hc hk
  subst hc hk
  simp [session, bind_of_result_ok _ hv, hl, hl2]

theorem bootstrap_of_loaded (env : Env) (s : serveCmd) (cfg : CfgBackends) (sdk : FabricSDK)
    (b : ConfigBackend) (o : OuterVars) (hl : ConfigLoaded env s cfg sdk b) :
    bootstrap env s o =
      ⟨loadCalls s sdk ++ (session env s b).trace,
       (session env s b).result.map fun gw => ⟨o.sdk, some cfg, gw⟩⟩ := by
  simp only [bootstrap, hl.file, hl.new, hl.backend, orReturn_ok, Exec.pure_bind, emit_bind,
    loadCalls, List.cons_append, List.nil_append]
  cases h : (session env s b).result with
  | error e => simp [bind_of_result_error _ h, Except.map]
  | ok gw => simp [bind_of_result_ok _ h, Except.map]

theorem run_of_kube (env : Env) (s : serveCmd) (kc : KubeConfig) (k : KubeClient)
    (h : HLFClient) (hk : KubeReady env kc k h) :
    run env s =
      if s.hlfConfig ≠ str "" then
        ⟨kubeCalls env kc ++ (bootstrap env s ⟨none, none, none⟩).trace,
         (bootstrap env s ⟨none, none, none⟩).result.map fun o =>
           ⟨s.mspID, s.user, k, kc, h, o.sdk, o.cfgProvider, o.gw⟩⟩
      else ⟨kubeCalls env kc, .ok ⟨s.mspID, s.user, k, kc, h, none, none, none⟩⟩ := by
  simp only [run, hk.config, hk.client, hk.hlf, orReturn_ok, Exec.pure_bind, emit_bind, kubeCalls]
  by_cases hc : s.hlfConfig = str ""
  · simp [hc]
  · simp only [hc, ne_eq, not_false_eq_true, if_true]
    cases hb : (bootstrap env s ⟨none, none, none⟩).result with
    | error e => simp [bind_of_result_error _ hb, Except.map]
    | ok p => simp [bind_of_result_ok _ hb, Except.map]

theorem run_reaches (env : Env) (s : serveCmd) (kc : KubeConfig) (k : KubeClient)
    (h : HLFClient) (cfg : CfgBackends) (sdk : FabricSDK) (b : ConfigBackend)
    (hk : KubeReady env kc k h) (hc : s.hlfConfig ≠ str "") (hl : ConfigLoaded env s cfg sdk b) :
    run env s =
      ⟨kubeCalls env kc ++ (loadCalls s sdk ++ (session env s b).trace),
       (session env s b).result.map fun gw => ⟨s.mspID, s.user, k, kc, h, none, some cfg, gw⟩⟩ := by
  rw [run_of_kube env s kc k h hk, if_pos hc, bootstrap_of_loaded env s cfg sdk b _ hl]
  cases (session env s b).result <;> simp [Except.map]

theorem session_ok_inv (env : Env) (s : serveCmd) (b : ConfigBackend) (gw : Option Gateway)
    (h : (session env s b).result = .ok gw) :
    ∃ v cv kv, (resolvePeer b s.mspID).result = .ok v ∧
      b.Lookup (userCertKey s.mspID s.user) = (cv, true) ∧
      b.Lookup (userPrivateKey s.mspID s.user) = (kv, true) ∧
      ConnectSucceeded env s v cv kv gw := by
  cases hv : (resolvePeer b s.mspID).result with
  | error st => simp [session_of_resolve_error env s b st hv] at h
  | ok v =>
    rcases hl : b.Lookup (userCertKey s.mspID s.user) with ⟨cv, ce⟩
    cases ce with
    | false => simp [session_certMissing env s b v hv (by simp [hl])] at h
    | true =>
      rcases hl2 : b.Lookup (userPrivateKey s.mspID s.user) with ⟨kv, ke⟩
      cases ke with
      | false => simp [session_keyMissing env s b v hv (by simp [hl]) (by simp [hl2])] at h
      | true =>
        rw [session_connect env s b v hv (by simp [hl]) (by simp [hl2])] at h
        simp only [hl, hl2] at h
        exact ⟨v, cv, kv, rfl, rfl, rfl, connect_ok_inv env s v cv kv gw h⟩

theorem bootstrap_ok_inv (env : Env) (s : serveCmd) (o p : OuterVars)
    (h : (bootstrap env s o).result = .ok p) :
    ∃ cfg, p = ⟨o.sdk, some cfg, p.gw⟩ ∧ BootstrapSucceeded env s cfg p.gw := by
  cases h1 : env.configFromFile s.hlfConfig with
  | error e => simp [bootstrap, h1] at h
  | ok cfg =>
    cases h2 : env.fabsdkNew s.hlfConfig with
    | error e => simp [bootstrap, h1, h2] at h
    | ok sdk =>
      cases h3 : env.sdkConfig sdk with
      | error e => simp [bootstrap, h1, h2, h3] at h
      | ok b =>
        have hl : ConfigLoaded env s cfg sdk b := ⟨h1, h2, h3⟩
        rw [bootstrap_of_loaded env s cfg sdk b o hl] at h
        cases hs : (session env s b).result with
        | error st => simp [hs, Except.map] at h
        | ok gw =>
          simp [hs, Except.map] at h
          subst h
          obtain ⟨v, cv, kv, hv, hc, hk, hcon⟩ := session_ok_inv env s b gw hs
          exact ⟨cfg, rfl, sdk, b, v, cv, kv, hl, hv, hc, hk, hcon⟩

theorem bootstrap_of_succeeded (env : Env) (s : serveCmd) (o : OuterVars) (cfg : CfgBackends)
    (gw : Option Gateway) (h : BootstrapSucceeded env s cfg gw) :
    (bootstrap env s o).result = .ok ⟨o.sdk, some cfg, gw⟩ := by
  obtain ⟨sdk, b, v, cv, kv, hl, hv, hc, hk, hcon⟩ := h
  rw [bootstrap_of_loaded env s cfg sdk b o hl,
    session_connect env s b v hv (by simp [hc]) (by simp [hk])]
  simp only [hc, hk]
  rw [connect_of_succeeded env s v cv kv gw hcon]
  rfl

theorem bootstrap_sdk (env : Env) (s : serveCmd) (o o' : OuterVars)
    (h : (bootstrap env s o).result = .ok o') : o'.sdk = o.sdk := by
  obtain ⟨cfg, hp, _⟩ := bootstrap_ok_inv env s o o' h
  rw [hp]

theorem run_ok_inv (env : Env) (s : serveCmd) (r : Resolver) (h : (run env s).result = .ok r) :
    ∃ kc k hc, KubeReady env kc k hc ∧
      ((s.hlfConfig = str "" ∧ r = ⟨s.mspID, s.user, k, kc, hc, none, none, none⟩) ∨
       (s.hlfConfig ≠ str "" ∧ ∃ cfg gw, BootstrapSucceeded env s cfg gw ∧
          r = ⟨s.mspID, s.user, k, kc, hc, none, some cfg, gw⟩)) := by
  cases h1 : env.BuildConfigFromFlags (str "") (env.Getenv (str "KUBECONFIG")) with
  | error e => simp [run, h1] at h
  | ok kc =>
    cases h2 : env.kubernetesNewForConfig kc with
    | error e => simp [run, h1, h2] at h
    | ok k =>
      cases h3 : env.operatorv1NewForConfig kc with
      | error e => simp [run, h1, h2, h3] at h
      | ok hc =>
        have hk : KubeReady env kc k hc := ⟨h1, h2, h3⟩
        refine ⟨kc, k, hc, hk, ?_⟩
        rw [run_of_kube env s kc k hc hk] at h
        by_cases he : s.hlfConfig = str ""
        · left
          simp [he] at h
          exact ⟨he, h.symm⟩
        · right
          rw [if_pos he] at h
          cases hb : (bootstrap env s ⟨none, none, none⟩).result with
          | error st => simp [hb, Except.map] at h
          | ok p =>
            simp [hb, Except.map] at h
            obtain ⟨cfg, hp, hsucc⟩ := bootstrap_ok_inv env s _ p hb
            exact ⟨he, cfg, p.gw, hsucc, by rw [← h, hp]⟩

theorem bootstrap_of_stepFails (env : Env) (s : serveCmd) (o : OuterVars) (e : Err)
    (h : StepFails env s e) :
    (bootstrap env s o).result = .error (.returned e) := by
  cases h with
  | file e h => simp [bootstrap, h]
  | sdk cfg e h1 h => simp [bootstrap, h1, h]
  | backend cfg sdk e h1 h2 h => simp [bootstrap, h1, h2, h]
  | userCert cfg sdk b v h1 h2 h =>
    rw [bootstrap_of_loaded env s cfg sdk b o h1, session_certMissing env s b v h2 h]
    rfl
  | userKey cfg sdk b v h1 h2 h3 h =>
    rw [bootstrap_of_loaded env s cfg sdk b o h1, session_keyMissing env s b v h2 h3 h]
    rfl
  | connect cfg sdk b v e h1 h2 h3 h4 h =>
    rw [bootstrap_of_loaded env s cfg sdk b o h1, session_connect env s b v h2 h3 h4]
    simp only
    rw [connect_of_fails env s v _ _ e h]
    rfl

theorem run_of_stepFails (env : Env) (s : serveCmd) (kc : KubeConfig) (k : KubeClient)
    (hc : HLFClient) (e : Err) (hk : KubeReady env kc k hc) (hne : s.hlfConfig ≠ str "")
    (h : StepFails env s e) :
    (run env s).result = .error (.returned e) := by
  rw [run_of_kube env s kc k hc hk, if_pos hne]
  simp only
  rw [bootstrap_of_stepFails env s _ e h]
  rfl

theorem run_not_ok_of_stepFails (env : Env) (s : serveCmd) (e : Err)
    (hne : s.hlfConfig ≠ str "") (h : StepFails env s e) (r : Resolver) :
    (run env s).result ≠ .ok r := by
  intro hr
  obtain ⟨kc, k, hc, hk, _⟩ := run_ok_inv env s r hr
  rw [run_of_stepFails env s kc k hc e hk hne h] at hr
  cases hr

theorem run_trace_of_empty (env : Env) (s : serveCmd) (he : s.hlfConfig = str "") :
    ∀ ev ∈ (run env s).trace, ev.isClusterCall = true := by
  cases h1 : env.BuildConfigFromFlags (str "") (env.Getenv (str "KUBECONFIG")) with
  | error e => simp [run, h1, Event.isClusterCall]
  | ok kc =>
    cases h2 : env.kubernetesNewForConfig kc with
    | error e => simp [run, h1, h2, Event.isClusterCall]
    | ok k =>
      cases h3 : env.operatorv1NewForConfig kc with
      | error e => simp [run, h1, h2, h3, Event.isClusterCall]
      | ok hc => simp [run, h1, h2, h3, he, Event.isClusterCall]

/-! ### Keys -/

theorem peersKey_ne_peerUrlKey (m p : GoString) : peersKey m ≠ peerUrlKey p := by
  intro h
  have h1 : str "organizations." = 111 :: str "rganizations." := by decide
  have h2 : str "peers." = 112 :: str "eers." := by decide
  rw [peersKey, peerUrlKey, h1, h2] at h
  simp at h

theorem peersKey_ne_peerTLSCACertKey (m p : GoString) : peersKey m ≠ peerTLSCACertKey p := by
  intro h
  have h1 : str "organizations." = 111 :: str "rganizations." := by decide
  have h2 : str "peers." = 112 :: str "eers." := by decide
  rw [peersKey, peerTLSCACertKey, h1, h2] at h
  simp at h

theorem peersKey_ne_userCertKey (m m' u : GoString) : peersKey m ≠ userCertKey m' u := by
  intro h
  have h1 : str ".peers" = str ".peer" ++ [115] := by decide
  have h2 : str ".cert.pem" = str ".cert.pe" ++ [109] := by decide
  have h3 := congrArg List.getLast? h
  rw [peersKey, userCertKey, h1, h2] at h3
  simp only [← List.append_assoc, List.getLast?_concat] at h3
  simp at h3

theorem peersKey_ne_userPrivateKey (m m' u : GoString) : peersKey m ≠ userPrivateKey m' u := by
  intro h
  have h1 : str ".peers" = str ".peer" ++ [115] := by decide
  have h2 : str ".key.pem" = str ".key.pe" ++ [109] := by decide
  have h3 := congrArg List.getLast? h
  rw [peersKey, userPrivateKey, h1, h2] at h3
  simp only [← List.append_assoc, List.getLast?_concat] at h3
  simp at h3

/-! ### The calls of a run that reaches the lookups -/

theorem session_withBackend (env : Env) (s : serveCmd) (x b : ConfigBackend) :
    session (env.withBackend x) s b = session env s b := rfl

theorem run_trace_cases (env : Env) (s : serveCmd) (kc : KubeConfig) (k : KubeClient)
    (h : HLFClient) (cfg : CfgBackends) (sdk : FabricSDK) (b : ConfigBackend) (v : PeerVars)
    (hk : KubeReady env kc k h) (hc : s.hlfConfig ≠ str "") (hl : ConfigLoaded env s cfg sdk b)
    (hv : (resolvePeer b s.mspID).result = .ok v) :
    ((b.Lookup (userCertKey s.mspID s.user)).2 = false ∧
      (run env s).trace = kubeCalls env kc ++ (loadCalls s sdk ++ ((resolvePeer b s.mspID).trace ++
        [.Lookup (userCertKey s.mspID s.user)]))) ∨
    ((b.Lookup (userCertKey s.mspID s.user)).2 = true ∧
      (b.Lookup (userPrivateKey s.mspID s.user)).2 = false ∧
      (run env s).trace = kubeCalls env kc ++ (loadCalls s sdk ++ ((resolvePeer b s.mspID).trace ++
        [.Lookup (userCertKey s.mspID s.user), .Lookup (userPrivateKey s.mspID s.user)]))) ∨
    ((b.Lookup (userCertKey s.mspID s.user)).2 = true ∧
      (b.Lookup (userPrivateKey s.mspID s.user)).2 = true ∧
      ∃ t, (run env s).trace = kubeCalls env kc ++ (loadCalls s sdk ++
        ((resolvePeer b s.mspID).trace ++
          ([.Lookup (userCertKey s.mspID s.user), .Lookup (userPrivateKey s.mspID s.user)] ++
            .newGrpcConnection v.peerUrl v.peerTLSCACert :: t))) ∧
        (∀ e a, Event.newGrpcConnection e a ∉ t) ∧ (∀ key, Event.Lookup key ∉ t)) := by
  rw [run_reaches env s kc k h cfg sdk b hk hc hl]
  cases hce : (b.Lookup (userCertKey s.mspID s.user)).2 with
  | false =>
    left
    rw [session_certMissing env s b v hv hce]
    simp
  | true =>
    right
    cases hke : (b.Lookup (userPrivateKey s.mspID s.user)).2 with
    | false =>
      left
      rw [session_keyMissing env s b v hv hce hke]
      simp
    | true =>
      right
      rw [session_connect env s b v hv hce hke]
      obtain ⟨t, ht, h1, h2⟩ := connect_trace env s v (b.Lookup (userCertKey s.mspID s.user)).1
        (b.Lookup (userPrivateKey s.mspID s.user)).1
      exact ⟨rfl, rfl, t, by simp only [ht], h1, h2⟩

theorem session_congr_peers (env : Env) (s : serveCmd) (b b' : ConfigBackend)
    (p u c : GoString) (rest rest' : List Value)
    (hp : (b.Lookup (peersKey s.mspID)).1 = .slice (.string p :: rest))
    (hu : (b.Lookup (peerUrlKey p)).1 = .string u)
    (hc : (b.Lookup (peerTLSCACertKey p)).1 = .string c)
    (hp' : (b'.Lookup (peersKey s.mspID)).1 = .slice (.string p :: rest'))
    (hagree : ∀ key, key ≠ peersKey s.mspID → b'.Lookup key = b.Lookup key) :
    session env s b' = session env s b := by
  have hu' : (b'.Lookup (peerUrlKey p)).1 = .string u := by
    rw [hagree _ (peersKey_ne_peerUrlKey _ _).symm]; exact hu
  have hc' : (b'.Lookup (peerTLSCACertKey p)).1 = .string c := by
    rw [hagree _ (peersKey_ne_peerTLSCACertKey _ _).symm]; exact hc
  have h1 := hagree _ (peersKey_ne_userCertKey s.mspID s.mspID s.user).symm
  have h2 := hagree _ (peersKey_ne_userPrivateKey s.mspID s.mspID s.user).symm
  simp only [session, resolvePeer_cons b s.mspID p u c rest hp hu hc,
    resolvePeer_cons b' s.mspID p u c rest' hp' hu' hc', h1, h2]

theorem resolvePeer_trace_of_wellTyped (b : ConfigBackend) (mspID : GoString)
    (hw : PeersWellTyped b mspID) :
    ∀ ev ∈ (resolvePeer b mspID).trace, ∃ key, ev = .Lookup key := by
  rcases hw with h | ⟨p, rest, u, c, h, hu, hc⟩
  · rw [resolvePeer_nil b mspID h]
    simp
  · rw [resolvePeer_cons b mspID p u c rest h hu hc]
    simp

/-! ## The claims -/

/-- C5. `getGateway` makes one call of `client.Connect`; the timeout options it passes are
exactly four, evaluate 5 s, endorse 15 s, submit 5 s and commit-status 60 s (in nanoseconds),
whatever the connection and identity; its error is the error of `client.Connect`, and when that
error is non-nil the gateway returned is nil, otherwise it is the gateway of `client.Connect`. -/
theorem getGateway_timeouts (env : Env) (clientConnection : Option ClientConn)
    (identity : IdentityStruct) :
    ∃ opts gw err,
      (getGateway env clientConnection identity).trace =
        [.clientConnect identity.Identity opts] ∧
      timeoutOptions opts =
        [.WithEvaluateTimeout 5000000000, .WithEndorseTimeout 15000000000,
         .WithSubmitTimeout 5000000000, .WithCommitStatusTimeout 60000000000] ∧
      (getGateway env clientConnection identity).result = .ok (gw, err) ∧
      err = (env.clientConnect identity.Identity opts).2 ∧
      (err ≠ none → gw = none) ∧
      (err = none → gw = (env.clientConnect identity.Identity opts).1) := by
  refine ⟨gatewayOptions clientConnection identity, ?_⟩
  rw [getGateway_eq]
  rcases h : env.clientConnect identity.Identity (gatewayOptions clientConnection identity)
    with ⟨gw, err⟩
  cases err with
  | none => exact ⟨gw, none, rfl, rfl, by simp, rfl, by simp, by simp⟩
  | some e => exact ⟨none, some e, rfl, rfl, by simp, rfl, by simp, by simp⟩

/-- C9. `newGrpcConnection` first parses the CA. If the parse fails it makes no other call
(no `grpc.Dial`) and returns a nil connection and an error wrapping the parse error. If the
parse succeeds it dials `peerEndpoint` unchanged with credentials whose pool holds exactly the
parsed certificate and whose server name is empty, and returns the connection with a nil error
when the dial succeeds, a nil connection and an error wrapping the dial error otherwise. A
non-nil connection with a nil error is returned exactly when both the parse and the dial
succeed. -/
theorem newGrpcConnection_steps (env : Env) (peerEndpoint : GoString) (tlsCert : List UInt8) :
    (∃ t, (newGrpcConnection env peerEndpoint tlsCert).trace = .CertificateFromPEM tlsCert :: t) ∧
    (∀ err, env.CertificateFromPEM tlsCert = .error err →
      newGrpcConnection env peerEndpoint tlsCert =
        ⟨[.CertificateFromPEM tlsCert],
         .ok (none, some (.wrap "failed to obtain commit status" err))⟩) ∧
    (∀ cert, env.CertificateFromPEM tlsCert = .ok cert →
      (newGrpcConnection env peerEndpoint tlsCert).trace =
        [.CertificateFromPEM tlsCert,
         .grpcDial peerEndpoint [.WithTransportCredentials ⟨⟨[cert]⟩, []⟩]] ∧
      (∀ err, env.grpcDial peerEndpoint [.WithTransportCredentials ⟨⟨[cert]⟩, []⟩] = .error err →
        (newGrpcConnection env peerEndpoint tlsCert).result =
          .ok (none, some (.wrap "failed to evaluate transaction" err))) ∧
      (∀ conn, env.grpcDial peerEndpoint [.WithTransportCredentials ⟨⟨[cert]⟩, []⟩] = .ok conn →
        (newGrpcConnection env peerEndpoint tlsCert).result = .ok (some conn, none))) ∧
    (∀ conn, (newGrpcConnection env peerEndpoint tlsCert).result = .ok (some conn, none) ↔
      ∃ cert, env.CertificateFromPEM tlsCert = .ok cert ∧
        env.grpcDial peerEndpoint [.WithTransportCredentials ⟨⟨[cert]⟩, []⟩] = .ok conn) ∧
    (∀ conn err, (newGrpcConnection env peerEndpoint tlsCert).result = .ok (conn, err) →
      (conn = none ∧ ∃ text inner, err = some (.wrap text inner)) ∨
      (err = none ∧ ∃ c, conn = some c)) := by
  cases h1 : env.CertificateFromPEM tlsCert with
  | error err =>
    simp [newGrpcConnection_parseError env peerEndpoint tlsCert err h1]
  | ok cert =>
    cases h2 : env.grpcDial peerEndpoint [.WithTransportCredentials ⟨⟨[cert]⟩, []⟩] with
    | error err =>
      simp [newGrpcConnection_dialError env peerEndpoint tlsCert cert err h1 h2, h2]
    | ok conn =>
      simp [newGrpcConnection_ok env peerEndpoint tlsCert cert conn h1 h2, h2]

/-- C3. At the configuration without the entry `organizations.OrgMSP.peers` the lookup reports
`(nil, false)` and `run` stops by the panic of the type assertion at line 98: it returns no
error. At the configuration whose peer list is empty, `run` makes no peer lookup, calls
`newGrpcConnection` with the empty endpoint and no CA bytes, and the error it returns is the
one of `newGrpcConnection`. -/
theorem run_peer_list_missing_or_empty :
    sampleCmd.hlfConfig ≠ str "" ∧
    (run scenarioNoPeerList sampleCmd).result =
      .error (.panicked (.interfaceConversion "nil" "[]interface {}")) ∧
    (run scenarioNoPeerList sampleCmd).trace.getLast? =
      some (.Lookup (str "organizations.OrgMSP.peers")) ∧
    Event.newGrpcConnection [] [] ∈
      (run (scenario [] "grpcs://localhost:7051") sampleCmd).trace ∧
    (run (scenario [] "grpcs://localhost:7051") sampleCmd).result =
      .error (.returned (.wrap "failed to obtain commit status" (.ext 1))) := by
  refine ⟨by decide, rfl, by decide, by decide, rfl⟩

/-- C4, counterexample. The url `peer0.grpcs://example.com:7051` does not start with
`grpcs://`, yet the endpoint passed to `newGrpcConnection` is `peer0.example.com:7051`: the
occurrence inside the url is removed, and the endpoint is not the url. -/
theorem scheme_inside_url_removed :
    ¬ str "grpcs://" <+: str "peer0.grpcs://example.com:7051" ∧
    Event.newGrpcConnection (str "peer0.example.com:7051") (str "CA") ∈
      (run (scenario ["peer0"] "peer0.grpcs://example.com:7051") sampleCmd).trace ∧
    Event.newGrpcConnection (str "peer0.grpcs://example.com:7051") (str "CA") ∉
      (run (scenario ["peer0"] "peer0.grpcs://example.com:7051") sampleCmd).trace := by
  refine ⟨by decide, by decide, by decide⟩

/-- C4, amended. The endpoint resolved for the first peer is its url with every occurrence of
`grpcs://` removed, scanning from the left without overlap: it is the url unchanged when the
url contains no occurrence, the url without its leading `grpcs://` when it starts with one and
contains no other, and in general what precedes the first occurrence followed by the result
for what follows it. -/
theorem resolvePeer_removes_every_scheme (b : ConfigBackend) (mspID p u c : GoString)
    (rest : List Value)
    (hp : (b.Lookup (peersKey mspID)).1 = .slice (.string p :: rest))
    (hu : (b.Lookup (peerUrlKey p)).1 = .string u)
    (hc : (b.Lookup (peerTLSCACertKey p)).1 = .string c) :
    ∃ v, (resolvePeer b mspID).result = .ok v ∧
      v.peerUrl = Replace u (str "grpcs://") (str "") (-1) ∧
      (¬ str "grpcs://" <:+: u → v.peerUrl = u) ∧
      (∀ r, u = str "grpcs://" ++ r → ¬ str "grpcs://" <:+: r → v.peerUrl = r) ∧
      (∀ a r, u = a ++ str "grpcs://" ++ r →
        ¬ str "grpcs://" <:+: a ++ (str "grpcs://").dropLast →
        v.peerUrl = a ++ Replace r (str "grpcs://") (str "") (-1)) := by
  refine ⟨_, by rw [resolvePeer_cons b mspID p u c rest hp hu hc], rfl, ?_, ?_, ?_⟩
  · intro h
    simp only [Replace_scheme]
    exact replaceScan_noOcc _ _ _ h
  · intro r hr h
    simp only [Replace_scheme, hr]
    rw [replaceScan_at_occ _ _ _ scheme_ne_nil, replaceScan_noOcc _ _ _ h]
    rfl
  · intro a r hr h
    simp only [Replace_scheme, hr]
    rw [replaceScan_first _ _ _ _ scheme_ne_nil h]
    simp

/-- C4, amended, at the url `grpcs://localhost:7051`: the endpoint is `localhost:7051`. -/
theorem resolvePeer_removes_every_scheme_witness :
    ∃ v, (resolvePeer ⟨lookupIn (peersEntry ["peer0"] :: sampleEntries "grpcs://localhost:7051")⟩
        (str "OrgMSP")).result = .ok v ∧
      v.peerUrl = Replace (str "grpcs://localhost:7051") (str "grpcs://") (str "") (-1) ∧
      (¬ str "grpcs://" <:+: str "grpcs://localhost:7051" →
        v.peerUrl = str "grpcs://localhost:7051") ∧
      (∀ r, str "grpcs://localhost:7051" = str "grpcs://" ++ r → ¬ str "grpcs://" <:+: r →
        v.peerUrl = r) ∧
      (∀ a r, str "grpcs://localhost:7051" = a ++ str "grpcs://" ++ r →
        ¬ str "grpcs://" <:+: a ++ (str "grpcs://").dropLast →
        v.peerUrl = a ++ Replace r (str "grpcs://") (str "") (-1)) :=
  resolvePeer_removes_every_scheme
    ⟨lookupIn (peersEntry ["peer0"] :: sampleEntries "grpcs://localhost:7051")⟩
    (str "OrgMSP") (str "peer0") (str "grpcs://localhost:7051") (str "CA") [] rfl rfl rfl

/-- C1. When `run` reaches the lookups with a peer list whose first item is the peer name `p`,
and the values at `peers.<p>.url` and `peers.<p>.tlsCACerts.pem` are the strings `u` and `c`:
every call of `newGrpcConnection` has the endpoint `u` with `grpcs://` removed and the CA bytes
`c`; the call is made when both user lookups report the key present; the only keys looked up are
the peer list, the two keys of `p` and the two user keys; and a backend that differs only in the
items after the first of the peer list gives the same run. -/
theorem run_first_peer (env : Env) (s : serveCmd) (kc : KubeConfig) (k : KubeClient)
    (h : HLFClient) (cfg : CfgBackends) (sdk : FabricSDK) (b : ConfigBackend)
    (p u c : GoString) (rest : List Value)
    (hk : KubeReady env kc k h) (hne : s.hlfConfig ≠ str "") (hl : ConfigLoaded env s cfg sdk b)
    (hp : (b.Lookup (peersKey s.mspID)).1 = .slice (.string p :: rest))
    (hu : (b.Lookup (peerUrlKey p)).1 = .string u)
    (hc : (b.Lookup (peerTLSCACertKey p)).1 = .string c) :
    (∀ e a, Event.newGrpcConnection e a ∈ (run env s).trace →
      e = Replace u (str "grpcs://") (str "") (-1) ∧ a = c) ∧
    ((b.Lookup (userCertKey s.mspID s.user)).2 = true →
      (b.Lookup (userPrivateKey s.mspID s.user)).2 = true →
      Event.newGrpcConnection (Replace u (str "grpcs://") (str "") (-1)) c ∈ (run env s).trace) ∧
    (∀ key, Event.Lookup key ∈ (run env s).trace →
      key ∈ [peersKey s.mspID, peerUrlKey p, peerTLSCACertKey p,
        userCertKey s.mspID s.user, userPrivateKey s.mspID s.user]) ∧
    (∀ b' rest', (b'.Lookup (peersKey s.mspID)).1 = .slice (.string p :: rest') →
      (∀ key, key ≠ peersKey s.mspID → b'.Lookup key = b.Lookup key) →
      run (env.withBackend b') s = run env s) := by
  have hr := resolvePeer_cons b s.mspID p u c rest hp hu hc
  have hv : (resolvePeer b s.mspID).result =
      .ok ⟨[p], 1, Replace u (str "grpcs://") (str "") (-1), c⟩ := by rw [hr]
  refine ⟨?_, ?_, ?_, ?_⟩
  · intro e a hmem
    rcases run_trace_cases env s kc k h cfg sdk b _ hk hne hl hv with
      ⟨_, ht⟩ | ⟨_, _, ht⟩ | ⟨_, _, t, ht, hn, _⟩
    · rw [ht, hr] at hmem
      simp [kubeCalls, loadCalls] at hmem
    · rw [ht, hr] at hmem
      simp [kubeCalls, loadCalls] at hmem
    · rw [ht, hr] at hmem
      simp [kubeCalls, loadCalls, hn] at hmem
      exact hmem
  · intro hce hke
    rcases run_trace_cases env s kc k h cfg sdk b _ hk hne hl hv with
      ⟨hce', _⟩ | ⟨_, hke', _⟩ | ⟨_, _, t, ht, _, _⟩
    · rw [hce] at hce'; cases hce'
    · rw [hke] at hke'; cases hke'
    · rw [ht]
      simp
  · intro key hmem
    rcases run_trace_cases env s kc k h cfg sdk b _ hk hne hl hv with
      ⟨_, ht⟩ | ⟨_, _, ht⟩ | ⟨_, _, t, ht, _, hn⟩
    · rw [ht, hr] at hmem
      simp [kubeCalls, loadCalls] at hmem
      simp
      tauto
    · rw [ht, hr] at hmem
      simp [kubeCalls, loadCalls] at hmem
      simp
      tauto
    · rw [ht, hr] at hmem
      simp [kubeCalls, loadCalls, hn] at hmem
      simp
      tauto
  · intro b' rest' hp' hagree
    have hk' : KubeReady (env.withBackend b') kc k h := ⟨hk.config, hk.client, hk.hlf⟩
    have hl' : ConfigLoaded (env.withBackend b') s cfg sdk b' := ⟨hl.file, hl.new, rfl⟩
    rw [run_reaches env s kc k h cfg sdk b hk hne hl,
      run_reaches (env.withBackend b') s kc k h cfg sdk b' hk' hne hl',
      session_withBackend, session_congr_peers env s b b' p u c rest rest' hp hu hc hp' hagree]
    rfl

/-- C1 at the scenario of two peers `peer0`, `peer1`: the endpoint is `localhost:7051`, the CA
the stored bytes, and the run is the one of the scenario with `peer0` alone. -/
theorem run_first_peer_witness :
    Replace (str "grpcs://localhost:7051") (str "grpcs://") (str "") (-1) = str "localhost:7051" ∧
    Event.newGrpcConnection (Replace (str "grpcs://localhost:7051") (str "grpcs://") (str "") (-1))
        (str "CA") ∈ (run (scenario ["peer0", "peer1"] "grpcs://localhost:7051") sampleCmd).trace ∧
    run ((scenario ["peer0", "peer1"] "grpcs://localhost:7051").withBackend
        ⟨lookupIn (peersEntry ["peer0"] :: sampleEntries "grpcs://localhost:7051")⟩) sampleCmd =
      run (scenario ["peer0", "peer1"] "grpcs://localhost:7051") sampleCmd :=
  have hkey : peersKey sampleCmd.mspID = str "organizations.OrgMSP.peers" := by decide
  have hthm := run_first_peer (scenario ["peer0", "peer1"] "grpcs://localhost:7051") sampleCmd
    ⟨1⟩ ⟨2⟩ ⟨3⟩ ⟨4⟩ ⟨5⟩
    ⟨lookupIn (peersEntry ["peer0", "peer1"] :: sampleEntries "grpcs://localhost:7051")⟩
    (str "peer0") (str "grpcs://localhost:7051") (str "CA") [.string (str "peer1")]
    ⟨rfl, rfl, rfl⟩ (by decide) ⟨rfl, rfl, rfl⟩ rfl rfl rfl
  ⟨by decide, hthm.2.1 rfl rfl,
   hthm.2.2.2 ⟨lookupIn (peersEntry ["peer0"] :: sampleEntries "grpcs://localhost:7051")⟩ [] rfl
     (fun key hne => by
       rw [hkey] at hne
       simp [lookupIn, peersEntry, hne])⟩

/-- When `run` reaches the lookups and the peer entries are well typed, a user lookup that
reports the key absent makes `run` return the error of that credential, the certificate
first, and the two errors differ. -/
theorem run_user_credential_errors_of_wellTyped (env : Env) (s : serveCmd) (kc : KubeConfig)
    (k : KubeClient) (h : HLFClient) (cfg : CfgBackends) (sdk : FabricSDK) (b : ConfigBackend)
    (hk : KubeReady env kc k h) (hne : s.hlfConfig ≠ str "") (hl : ConfigLoaded env s cfg sdk b)
    (hw : PeersWellTyped b s.mspID) :
    ((b.Lookup (userCertKey s.mspID s.user)).2 = false →
      (run env s).result = .error (.returned (.msg "user cert not found"))) ∧
    ((b.Lookup (userCertKey s.mspID s.user)).2 = true →
      (b.Lookup (userPrivateKey s.mspID s.user)).2 = false →
      (run env s).result = .error (.returned (.msg "user key not found"))) ∧
    Err.msg "user cert not found" ≠ Err.msg "user key not found" := by
  obtain ⟨v, hv⟩ := (resolvePeer_ok_iff b s.mspID).mpr hw
  refine ⟨?_, ?_, by decide⟩
  · intro hce
    exact run_of_stepFails env s kc k h _ hk hne (.userCert cfg sdk b v hl hv hce)
  · intro hce hke
    exact run_of_stepFails env s kc k h _ hk hne (.userKey cfg sdk b v hl hv hce hke)

/-- C2. At the end-to-end configuration run with `--msp-id Org2MSP`, an organization it has
no entry for, the key `organizations.Org2MSP.users.admin.cert.pem` is absent, and so is the
peer list of that organization: `run` stops by the panic of the type assertion at line 98,
before the lookup of the user certificate is made, and does not return `user cert not found`. -/
theorem run_panics_before_user_lookup :
    otherOrgCmd.hlfConfig ≠ str "" ∧
    lookupIn (peersEntry ["peer0"] :: sampleEntries "grpcs://localhost:7051")
      (userCertKey otherOrgCmd.mspID otherOrgCmd.user) = (.nil, false) ∧
    (run (scenario ["peer0"] "grpcs://localhost:7051") otherOrgCmd).result =
      .error (.panicked (.interfaceConversion "nil" "[]interface {}")) ∧
    (run (scenario ["peer0"] "grpcs://localhost:7051") otherOrgCmd).result ≠
      .error (.returned (.msg "user cert not found")) ∧
    Event.Lookup (userCertKey otherOrgCmd.mspID otherOrgCmd.user) ∉
      (run (scenario ["peer0"] "grpcs://localhost:7051") otherOrgCmd).trace := by
  have hres : (run (scenario ["peer0"] "grpcs://localhost:7051") otherOrgCmd).result =
      .error (.panicked (.interfaceConversion "nil" "[]interface {}")) := rfl
  refine ⟨by decide, rfl, hres, ?_, by decide⟩
  rw [hres]
  intro h
  cases h

/-- C8. When `run` reaches the lookups and the peer entries are well typed: if either user
lookup reports the key absent, `run` returns the error of the missing credential and its calls
include no `newGrpcConnection`, no CA parse and no dial; and whenever `newGrpcConnection` is
called, both user lookups were made before it, both reported the key present, and no call of
the channel construction precedes it. -/
theorem run_credential_before_channel (env : Env) (s : serveCmd) (kc : KubeConfig)
    (k : KubeClient) (h : HLFClient) (cfg : CfgBackends) (sdk : FabricSDK) (b : ConfigBackend)
    (hk : KubeReady env kc k h) (hne : s.hlfConfig ≠ str "") (hl : ConfigLoaded env s cfg sdk b)
    (hw : PeersWellTyped b s.mspID) :
    ((b.Lookup (userCertKey s.mspID s.user)).2 = false ∨
        (b.Lookup (userPrivateKey s.mspID s.user)).2 = false →
      ((run env s).result = .error (.returned (.msg "user cert not found")) ∨
        (run env s).result = .error (.returned (.msg "user key not found"))) ∧
      ∀ ev ∈ (run env s).trace, ev.isChannelCall = false) ∧
    (∀ e a, Event.newGrpcConnection e a ∈ (run env s).trace →
      (b.Lookup (userCertKey s.mspID s.user)).2 = true ∧
      (b.Lookup (userPrivateKey s.mspID s.user)).2 = true ∧
      ∃ before after, (run env s).trace = before ++ .newGrpcConnection e a :: after ∧
        .Lookup (userCertKey s.mspID s.user) ∈ before ∧
        .Lookup (userPrivateKey s.mspID s.user) ∈ before ∧
        ∀ ev ∈ before, ev.isChannelCall = false) := by
  obtain ⟨v, hv⟩ := (resolvePeer_ok_iff b s.mspID).mpr hw
  have hlook := resolvePeer_trace_of_wellTyped b s.mspID hw
  have hlook' : ∀ ev ∈ (resolvePeer b s.mspID).trace, ev.isChannelCall = false := by
    intro ev hev
    obtain ⟨key, rfl⟩ := hlook ev hev
    rfl
  have hlook'' : ∀ e a, Event.newGrpcConnection e a ∉ (resolvePeer b s.mspID).trace := by
    intro e a hev
    obtain ⟨key, hkey⟩ := hlook _ hev
    cases hkey
  rcases run_trace_cases env s kc k h cfg sdk b v hk hne hl hv with
    ⟨hce, ht⟩ | ⟨hce, hke, ht⟩ | ⟨hce, hke, t, ht, hn, _⟩
  · refine ⟨fun _ => ⟨Or.inl ?_, ?_⟩, ?_⟩
    · exact run_of_stepFails env s kc k h _ hk hne (.userCert cfg sdk b v hl hv hce)
    · rw [ht]
      intro ev hev
      simp only [List.mem_append, List.mem_singleton] at hev
      rcases hev with hev | hev | hev | hev
      · simp [kubeCalls] at hev
        rcases hev with rfl | rfl | rfl <;> rfl
      · simp [loadCalls] at hev
        rcases hev with rfl | rfl | rfl <;> rfl
      · exact hlook' ev hev
      · subst hev; rfl
    · intro e a hmem
      rw [ht] at hmem
      simp [kubeCalls, loadCalls, hlook''] at hmem
  · refine ⟨fun _ => ⟨Or.inr ?_, ?_⟩, ?_⟩
    · exact run_of_stepFails env s kc k h _ hk hne (.userKey cfg sdk b v hl hv hce hke)
    · rw [ht]
      intro ev hev
      simp only [List.mem_append, List.mem_cons, List.mem_singleton, List.not_mem_nil,
        or_false] at hev
      rcases hev with hev | hev | hev | hev | hev
      · simp [kubeCalls] at hev
        rcases hev with rfl | rfl | rfl <;> rfl
      · simp [loadCalls] at hev
        rcases hev with rfl | rfl | rfl <;> rfl
      · exact hlook' ev hev
      · subst hev; rfl
      · subst hev; rfl
    · intro e a hmem
      rw [ht] at hmem
      simp [kubeCalls, loadCalls, hlook''] at hmem
  · refine ⟨fun hor => ?_, ?_⟩
    · rcases hor with hf | hf
      · rw [hce] at hf; cases hf
      · rw [hke] at hf; cases hf
    · intro e a hmem
      refine ⟨hce, hke, ?_⟩
      have hea : e = v.peerUrl ∧ a = v.peerTLSCACert := by
        rw [ht] at hmem
        simp [kubeCalls, loadCalls, hlook'', hn] at hmem
        exact hmem
      obtain ⟨rfl, rfl⟩ := hea
      refine ⟨kubeCalls env kc ++ (loadCalls s sdk ++ ((resolvePeer b s.mspID).trace ++
        [.Lookup (userCertKey s.mspID s.user), .Lookup (userPrivateKey s.mspID s.user)])),
        t, ?_, ?_, ?_, ?_⟩
      · rw [ht]
        simp
      · simp
      · simp
      · intro ev hev
        simp only [List.mem_append, List.mem_cons, List.mem_singleton, List.not_mem_nil,
          or_false] at hev
        rcases hev with hev | hev | hev | hev | hev
        · simp [kubeCalls] at hev
          rcases hev with rfl | rfl | rfl <;> rfl
        · simp [loadCalls] at hev
          rcases hev with rfl | rfl | rfl <;> rfl
        · exact hlook' ev hev
        · subst hev; rfl
        · subst hev; rfl

/-- C8 at the scenario with a peer and its CA but without the user entries: the error is the
one of the certificate and no call of the channel construction is made. -/
theorem run_credential_before_channel_witness :
    ((run scenarioNoUser sampleCmd).result = .error (.returned (.msg "user cert not found")) ∨
      (run scenarioNoUser sampleCmd).result = .error (.returned (.msg "user key not found"))) ∧
    ∀ ev ∈ (run scenarioNoUser sampleCmd).trace, ev.isChannelCall = false :=
  (run_credential_before_channel scenarioNoUser sampleCmd ⟨1⟩ ⟨2⟩ ⟨3⟩ ⟨4⟩ ⟨5⟩
    ⟨lookupIn
      [peersEntry ["peer0"],
       ("peers.peer0.url", .string (str "grpcs://localhost:7051")),
       ("peers.peer0.tlsCACerts.pem", .string (str "CA"))]⟩
    ⟨rfl, rfl, rfl⟩ (by decide) ⟨rfl, rfl, rfl⟩
    (Or.inr ⟨str "peer0", [], str "grpcs://localhost:7051", str "CA", rfl, rfl, rfl⟩)).1
    (Or.inl rfl)

/-- For every run: a Resolver with a non-nil Gateway is built only if `hlfConfig` is non-empty,
and a Resolver built with a non-empty `hlfConfig` means that every step of the block succeeded;
with an empty `hlfConfig` the only calls are those of the cluster clients and the Gateway is
nil; and if a step of the block reports an error, no Resolver is built and, the cluster clients
being built, `run` returns that error. A step that ends in a panic reports no error. -/
theorem run_resolver_of_steps (env : Env) (s : serveCmd) :
    (∀ r, (run env s).result = .ok r → r.Gateway ≠ none → s.hlfConfig ≠ str "") ∧
    (∀ r, (run env s).result = .ok r → s.hlfConfig ≠ str "" →
      ∃ cfg, BootstrapSucceeded env s cfg r.Gateway) ∧
    (s.hlfConfig = str "" →
      (∀ ev ∈ (run env s).trace, ev.isClusterCall = true) ∧
      ∀ r, (run env s).result = .ok r → r.Gateway = none) ∧
    (∀ e, s.hlfConfig ≠ str "" → StepFails env s e →
      (∀ r, (run env s).result ≠ .ok r) ∧
      ∀ kc k h, KubeReady env kc k h → (run env s).result = .error (.returned e)) := by
  refine ⟨?_, ?_, ?_, ?_⟩
  · intro r hr hg he
    obtain ⟨kc, k, hc, _, ⟨_, rfl⟩ | ⟨hne, _⟩⟩ := run_ok_inv env s r hr
    · exact hg rfl
    · exact hne he
  · intro r hr hne
    obtain ⟨kc, k, hc, _, ⟨he, _⟩ | ⟨_, cfg, gw, hs, rfl⟩⟩ := run_ok_inv env s r hr
    · exact absurd he hne
    · exact ⟨cfg, hs⟩
  · intro he
    refine ⟨run_trace_of_empty env s he, ?_⟩
    intro r hr
    obtain ⟨kc, k, hc, _, ⟨_, rfl⟩ | ⟨hne, _⟩⟩ := run_ok_inv env s r hr
    · rfl
    · exact absurd he hne
  · intro e hne hf
    exact ⟨run_not_ok_of_stepFails env s e hne hf,
      fun kc k h hk => run_of_stepFails env s kc k h e hk hne hf⟩

/-- C6. At the configuration whose peer list names `peer1`, a peer without the entry
`peers.peer1.url`, the lookup step fails (it reports `(nil, false)`) and `run` stops by the
panic of the type assertion at line 110: it builds no Resolver, but it returns no error
either. -/
theorem run_panics_on_missing_peer_url :
    sampleCmd.hlfConfig ≠ str "" ∧
    lookupIn (peersEntry ["peer1"] :: sampleEntries "grpcs://localhost:7051")
      (peerUrlKey (str "peer1")) = (.nil, false) ∧
    (run (scenario ["peer1"] "grpcs://localhost:7051") sampleCmd).result =
      .error (.panicked (.interfaceConversion "nil" "string")) ∧
    (∀ e, (run (scenario ["peer1"] "grpcs://localhost:7051") sampleCmd).result ≠
      .error (.returned e)) ∧
    (∀ r, (run (scenario ["peer1"] "grpcs://localhost:7051") sampleCmd).result ≠ .ok r) := by
  have hres : (run (scenario ["peer1"] "grpcs://localhost:7051") sampleCmd).result =
      .error (.panicked (.interfaceConversion "nil" "string")) := rfl
  refine ⟨by decide, rfl, hres, ?_, ?_⟩
  · intro e h
    rw [hres] at h
    cases h
  · intro r h
    rw [hres] at h
    cases h

/-- C7, counterexample. At the scenario without the user entries `hlfConfig` is non-empty, the
lookup of the user certificate fails, and `run` terminates with that error: it builds no
Resolver. -/
theorem run_stops_on_missing_user :
    sampleCmd.hlfConfig ≠ str "" ∧
    StepFails scenarioNoUser sampleCmd (.msg "user cert not found") ∧
    (run scenarioNoUser sampleCmd).result = .error (.returned (.msg "user cert not found")) ∧
    ¬ ∃ r, (run scenarioNoUser sampleCmd).result = .ok r := by
  have hres : (run scenarioNoUser sampleCmd).result =
      .error (.returned (.msg "user cert not found")) := rfl
  refine ⟨by decide, ?_, hres, ?_⟩
  · exact .userCert ⟨4⟩ ⟨5⟩
      ⟨lookupIn
        [peersEntry ["peer0"],
         ("peers.peer0.url", .string (str "grpcs://localhost:7051")),
         ("peers.peer0.tlsCACerts.pem", .string (str "CA"))]⟩
      ⟨[str "peer0"], 1, str "localhost:7051", str "CA"⟩ ⟨rfl, rfl, rfl⟩ rfl rfl
  · rintro ⟨r, hr⟩
    rw [hres] at hr
    cases hr

/-- C7, amended. The cluster clients being built: with a non-empty `hlfConfig`, when a step
of the block reports an error (a call returns an error, or a user lookup reports its key
absent) `run` returns that error and builds no Resolver; with a non-empty `hlfConfig` a
Resolver is built only if every step of the block succeeded; with an empty `hlfConfig` `run`
builds the Resolver with a nil Gateway. -/
theorem run_returns_step_error (env : Env) (s : serveCmd) (kc : KubeConfig) (k : KubeClient)
    (h : HLFClient) (hk : KubeReady env kc k h) :
    (s.hlfConfig ≠ str "" → ∀ e, StepFails env s e →
      (run env s).result = .error (.returned e) ∧ ∀ r, (run env s).result ≠ .ok r) ∧
    (s.hlfConfig ≠ str "" → ∀ r, (run env s).result = .ok r →
      ∃ cfg, BootstrapSucceeded env s cfg r.Gateway) ∧
    (s.hlfConfig = str "" →
      (run env s).result = .ok ⟨s.mspID, s.user, k, kc, h, none, none, none⟩) := by
  refine ⟨?_, ?_, ?_⟩
  · intro hne e hf
    exact ⟨run_of_stepFails env s kc k h e hk hne hf, run_not_ok_of_stepFails env s e hne hf⟩
  · intro hne r hr
    obtain ⟨_, _, _, _, ⟨he, _⟩ | ⟨_, cfg, gw, hs, rfl⟩⟩ := run_ok_inv env s r hr
    · exact absurd he hne
    · exact ⟨cfg, hs⟩
  · intro he
    rw [run_of_kube env s kc k h hk]
    simp [he]

/-- C7, amended, at the scenario whose dial fails: `run` returns the error of
`newGrpcConnection`. -/
theorem run_returns_step_error_witness :
    (run scenarioDialFails sampleCmd).result =
      .error (.returned (.wrap "failed to evaluate transaction" (.ext 2))) :=
  ((run_returns_step_error scenarioDialFails sampleCmd ⟨1⟩ ⟨2⟩ ⟨3⟩ ⟨rfl, rfl, rfl⟩).1 (by decide) _
    (.connect ⟨4⟩ ⟨5⟩ ⟨lookupIn (peersEntry ["peer0"] :: sampleEntries "grpcs://localhost:7051")⟩
      ⟨[str "peer0"], 1, str "localhost:7051", str "CA"⟩ _ ⟨rfl, rfl, rfl⟩ rfl rfl rfl
      (.channel none _ rfl))).1

/-- C10. Whenever `run` builds the Resolver its `FabricSDK` is nil; when `hlfConfig` is
non-empty the block succeeded, `ConfigBackends` is the value the config provider returned and
`Gateway` the gateway of `getGateway`: they are the two values the block assigns; and the block
leaves the outer `sdk` as it finds it. -/
theorem run_resolver_fabricSDK_nil (env : Env) (s : serveCmd) (r : Resolver)
    (hr : (run env s).result = .ok r) :
    r.FabricSDK = none ∧
    (s.hlfConfig ≠ str "" →
      ∃ cfg, env.configFromFile s.hlfConfig = .ok cfg ∧ r.ConfigBackends = some cfg ∧
        BootstrapSucceeded env s cfg r.Gateway ∧
        (bootstrap env s ⟨none, none, none⟩).result = .ok ⟨none, r.ConfigBackends, r.Gateway⟩) ∧
    (∀ o o', (bootstrap env s o).result = .ok o' → o'.sdk = o.sdk) := by
  obtain ⟨kc, k, hc, _, ⟨he, rfl⟩ | ⟨hne, cfg, gw, hs, rfl⟩⟩ := run_ok_inv env s r hr
  · exact ⟨rfl, fun hne => absurd he hne, bootstrap_sdk env s⟩
  · refine ⟨rfl, fun _ => ⟨cfg, ?_, rfl, hs, bootstrap_of_succeeded env s _ cfg gw hs⟩,
      bootstrap_sdk env s⟩
    obtain ⟨sdk, b, v, cv, kv, hl, _⟩ := hs
    exact hl.file

/-- C10 at the end-to-end scenario, where every step succeeds: the Resolver has a nil
`FabricSDK`, the loaded configuration and the gateway. -/
theorem run_resolver_fabricSDK_nil_witness :
    (run (scenario ["peer0"] "grpcs://localhost:7051") sampleCmd).result =
      .ok ⟨str "OrgMSP", str "admin", ⟨2⟩, ⟨1⟩, ⟨3⟩, none, some ⟨4⟩, some ⟨12⟩⟩ ∧
    (⟨str "OrgMSP", str "admin", ⟨2⟩, ⟨1⟩, ⟨3⟩, none, some ⟨4⟩, some ⟨12⟩⟩ : Resolver).FabricSDK =
      none :=
  ⟨rfl, (run_resolver_fabricSDK_nil (scenario ["peer0"] "grpcs://localhost:7051") sampleCmd
    ⟨str "OrgMSP", str "admin", ⟨2⟩, ⟨1⟩, ⟨3⟩, none, some ⟨4⟩, some ⟨12⟩⟩ rfl).1⟩

end Serve
